import Mathlib

/-!
# secp256k1 key and signature layer (`src/cipher/secp256k1-go/secp256k1.go`)

A shallow embedding of the Go package.  Byte slices are modelled with their
nil-ness, the curve engine, the digest and the random source are parameters,
and every function that can call `log.Panic` or `log.Fatal` returns an
`Outcome`.  Logging through `log.Printf` has no effect on results and is left
out.
-/

namespace Secp256k1

/-! ## Go values -/

/-- One Go `byte`. -/
abbrev Byte := Fin 256

/-- A Go `[]byte`: `none` is the nil slice, `some l` a non-nil slice holding `l`. -/
abbrev Slice := Option (List Byte)

/-- Go `len(s)`; the nil slice has length 0. -/
def len : Slice → Nat
  | none => 0
  | some l => l.length

/-- The bytes a slice holds; the nil slice holds none. -/
def bytes : Slice → List Byte
  | none => []
  | some l => l

/-- Go `s[i]` for an index the caller has already checked to be in range. -/
def idx (s : Slice) (i : Nat) : Byte := (bytes s).getD i 0

/-- Go `s[0:n]` of a slice with at least `n` elements. -/
def upto (s : Slice) (n : Nat) : Slice := some ((bytes s).take n)

/-- Go `bytes.Equal`: contents only, nil and empty compare equal. -/
def bytesEqual (a b : Slice) : Bool := decide (bytes a = bytes b)

/-- Go `append(a, b...)`: nil stays nil when nothing is appended to it. -/
def goAppend : Slice → Slice → Slice
  | none, none => none
  | none, some [] => none
  | none, some (x :: xs) => some (x :: xs)
  | some a, b => some (a ++ bytes b)

/-- Go `byte(n)` of an `int`: truncation to the low eight bits. -/
def byteOfInt (n : Int) : Byte := Fin.ofNat (n % 256).toNat

/-- How a call ends: it returns, panics (`log.Panic`, or a Go runtime error),
terminates the process (`log.Fatal`), or the model ran out of loop fuel. -/
inductive Outcome (α : Type) where
  | ret : α → Outcome α
  | panic : String → Outcome α
  | fatal : String → Outcome α
  | outOfFuel : Outcome α
deriving DecidableEq

namespace Outcome

/-- Sequencing: anything but a return ends the caller the same way. -/
def bind {α β : Type} : Outcome α → (α → Outcome β) → Outcome β
  | ret a, f => f a
  | panic m, _ => panic m
  | fatal m, _ => fatal m
  | outOfFuel, _ => outOfFuel

/-- The call came back to its caller with a value. -/
def returns {α : Type} : Outcome α → Bool
  | ret _ => true
  | _ => false

/-- The call ended in `log.Panic`, a runtime panic or `log.Fatal`. -/
def aborts {α : Type} : Outcome α → Bool
  | panic _ => true
  | fatal _ => true
  | _ => false

end Outcome

/-! ## Collaborators -/

/-- What `cSig.Sign` leaves behind: its return code, the bytes `cSig.Bytes()`
then yields, and the recovery id written through the pointer. -/
structure SignResult where
  ret : Int
  sigBytes : Slice
  recid : Int
deriving DecidableEq

/-- The primitives this file calls but does not define: package `secp256k1-go2`
(imported as `secp`) and `SumSHA256` of the sibling file.  They are taken as
parameters.  Each field is the value the call returns, so an adapter describes
the engine where its calls return; a call that aborts inside the engine is
described by `Engine` below. -/
structure Adapter where
  /-- The type `secp.Number`. -/
  Number : Type
  /-- The type `secp.XY`. -/
  XY : Type
  /-- The method `Number.SetBytes`. -/
  SetBytes : Slice → Number
  SeckeyIsValid : Slice → Int
  GeneratePublicKey : Slice → Slice
  PubkeyIsValid : Slice → Int
  /-- The method `XY.ParsePubkey`: the success flag and the point it leaves in the receiver. -/
  ParsePubkey : Slice → Bool × XY
  /-- The method `XY.IsValid`. -/
  IsValid : XY → Bool
  /-- The method `XY.BytesUncompressed`. -/
  BytesUncompressed : XY → Slice
  /-- The method `Signature.Sign` followed by `Signature.Bytes`. -/
  Sign : Number → Number → Number → SignResult
  RecoverPublicKey : Slice → Slice → Int → Slice × Int
  Multiply : Slice → Slice → Slice
  SumSHA256 : Slice → Slice

/-! ## Key validation -/

/-- Go `VerifySeckey`. -/
def VerifySeckey (A : Adapter) (seckey : Slice) : Int :=
  if len seckey ≠ 32 then -1
  else if A.SeckeyIsValid seckey ≠ 1 then -2
  else 1

/-- Go `VerifyPubkey`. -/
def VerifyPubkey (A : Adapter) (pubkey : Slice) : Int :=
  if len pubkey ≠ 33 then -1
  else if A.PubkeyIsValid pubkey ≠ 1 then -3
  else if (A.ParsePubkey pubkey).1 = false then -2
  else if A.IsValid (A.ParsePubkey pubkey).2 = false then -4
  else 1

/-! ## Key generation -/

/-- Go `pubkeyFromSeckey`. -/
def pubkeyFromSeckey (A : Adapter) (seckey : Slice) : Outcome Slice :=
  if len seckey ≠ 32 then .panic "seckey length invalid"
  else if A.SeckeyIsValid seckey ≠ 1 then .panic "always ensure seckey is valid"
  else if A.GeneratePublicKey seckey = none then
    .panic "ERROR: impossible, secp.BaseMultiply always returns true"
  else if len (A.GeneratePublicKey seckey) ≠ 33 then
    .panic "ERROR: impossible, invalid pubkey length"
  else if A.PubkeyIsValid (A.GeneratePublicKey seckey) ≠ 1 then
    .panic "ERROR: pubkey invald, ret=%d"
  else if VerifyPubkey A (A.GeneratePublicKey seckey) ≠ 1 then
    .panic "ERROR: pubkey verification failed, for deterministic. ret=%d"
  else .ret (A.GeneratePublicKey seckey)

/-- Go `GenerateKeyPair`.  `rand i` is what the `i`-th call of `RandByte(32)`
yields, `i` counts the draws made so far, and each pass through the label
`new_seckey` uses one unit of fuel. -/
def GenerateKeyPair (A : Adapter) (rand : Nat → Slice) : Nat → Nat → Outcome (Slice × Slice)
  | 0, _ => .outOfFuel
  | fuel + 1, i =>
    if A.SeckeyIsValid (rand i) ≠ 1 then GenerateKeyPair A rand fuel (i + 1)
    else
      (pubkeyFromSeckey A (rand i)).bind fun pubkey =>
        if pubkey = none then .panic "IMPOSSIBLE: pubkey invalid from valid seckey"
        else if A.PubkeyIsValid pubkey ≠ 1 then .panic "ERROR: Pubkey invalid, ret=%d"
        else .ret (pubkey, rand i)

/-- Go `PubkeyFromSeckey`. -/
def PubkeyFromSeckey (A : Adapter) (seckey : Slice) : Outcome Slice :=
  if len seckey ≠ 32 then .panic "PubkeyFromSeckey: invalid length"
  else
    (pubkeyFromSeckey A seckey).bind fun pubkey =>
      if pubkey = none then .panic "ERRROR: impossible, pubkey generation failed"
      else if A.PubkeyIsValid pubkey ≠ 1 then .panic "ERROR: Pubkey invalid, ret=%d"
      else .ret pubkey

/-- Go `UncompressPubkey`. -/
def UncompressPubkey (A : Adapter) (pubkey : Slice) : Outcome Slice :=
  if VerifyPubkey A pubkey ≠ 1 then .panic "cannot uncompress invalid pubkey"
  else if (A.ParsePubkey pubkey).1 = false then .panic "ERROR: impossible, pubkey parse fail"
  else if A.BytesUncompressed (A.ParsePubkey pubkey).2 = none then
    .panic "ERROR: pubkey, uncompression fail"
  else .ret (A.BytesUncompressed (A.ParsePubkey pubkey).2)

/-- Go `UncompressedPubkeyFromSeckey`. -/
def UncompressedPubkeyFromSeckey (A : Adapter) (seckey : Slice) : Outcome Slice :=
  if len seckey ≠ 32 then .panic "PubkeyFromSeckey: invalid length"
  else
    (PubkeyFromSeckey A seckey).bind fun pubkey =>
      if pubkey = none then .panic "Generating seckey from pubkey, failed"
      else if VerifyPubkey A pubkey ≠ 1 then
        .panic "ERROR: impossible, Pubkey generation succeeded but pubkey validation failed"
      else
        (UncompressPubkey A pubkey).bind fun uncompressedPubkey =>
          if uncompressedPubkey = none then .panic "decompression failed"
          else .ret uncompressedPubkey

/-! ## Deterministic derivation -/

/-- The body of Go `generateDeterministicKeyPair` from the label `new_seckey`
on; each pass through the label uses one unit of fuel.  `seed[0:32]` of a
digest shorter than 32 bytes is a runtime error (capacity equals length), and
`seckey` is the 32-byte buffer the digest was copied into. -/
def generateDeterministicKeyPairLoop (A : Adapter) : Nat → Slice → Outcome (Slice × Slice)
  | 0, _ => .outOfFuel
  | fuel + 1, seed =>
    if len (A.SumSHA256 (upto seed 32)) < 32 then
      .panic "runtime error: slice bounds out of range"
    else if bytesEqual (upto (A.SumSHA256 (upto seed 32)) 32) (A.SumSHA256 (upto seed 32)) = false then
      .panic ""
    else if A.SeckeyIsValid (upto (A.SumSHA256 (upto seed 32)) 32) ≠ 1 then
      generateDeterministicKeyPairLoop A fuel (A.SumSHA256 (upto seed 32))
    else if A.GeneratePublicKey (upto (A.SumSHA256 (upto seed 32)) 32) = none then
      .panic "ERROR: impossible, secp.BaseMultiply always returns true"
    else if len (A.GeneratePublicKey (upto (A.SumSHA256 (upto seed 32)) 32)) ≠ 33 then
      .panic "ERROR: impossible, pubkey length wrong"
    else if A.PubkeyIsValid (A.GeneratePublicKey (upto (A.SumSHA256 (upto seed 32)) 32)) ≠ 1 then
      .panic "ERROR: pubkey invalid, ret=%d"
    else if VerifyPubkey A (A.GeneratePublicKey (upto (A.SumSHA256 (upto seed 32)) 32)) ≠ 1 then
      .panic "ERROR: pubkey is invalid, for deterministic. ret=%d"
    else
      .ret (A.GeneratePublicKey (upto (A.SumSHA256 (upto seed 32)) 32),
            upto (A.SumSHA256 (upto seed 32)) 32)

/-- Go `generateDeterministicKeyPair`. -/
def generateDeterministicKeyPair (A : Adapter) (fuel : Nat) (seed : Slice) :
    Outcome (Slice × Slice) :=
  if seed = none then .panic ""
  else if len seed ≠ 32 then .panic ""
  else generateDeterministicKeyPairLoop A fuel seed

/-! ## ECDH -/

/-- Go `ECDH`.  The branch on `VerifySeckey(sec) != 1` only logs and falls through. -/
def ECDH (A : Adapter) (pub sec : Slice) : Outcome Slice :=
  if len sec ≠ 32 then .panic ""
  else if len pub ≠ 33 then .panic ""
  else if VerifyPubkey A pub ≠ 1 then .ret none
  else if A.Multiply pub sec = none then .ret none
  else if len (A.Multiply pub sec) ≠ 33 then .panic "ERROR: impossible, invalid pubkey length"
  else .ret (A.Multiply pub sec)

/-- Go `Secp256k1Hash`. -/
def Secp256k1Hash (A : Adapter) (fuel : Nat) (hash : Slice) : Outcome Slice :=
  (generateDeterministicKeyPair A fuel (A.SumSHA256 hash)).bind fun p1 =>
    (generateDeterministicKeyPair A fuel (A.SumSHA256 (A.SumSHA256 hash))).bind fun p2 =>
      (ECDH A p2.1 p1.2).bind fun ecdh =>
        .ret (A.SumSHA256 (goAppend (A.SumSHA256 hash) ecdh))

/-- Go `DeterministicKeyPairIterator`: the next seed, the public key, the secret key. -/
def DeterministicKeyPairIterator (A : Adapter) (fuel : Nat) (seedIn : Slice) :
    Outcome (Slice × Slice × Slice) :=
  (Secp256k1Hash A fuel seedIn).bind fun seed1 =>
    (generateDeterministicKeyPair A fuel (A.SumSHA256 (goAppend seedIn seed1))).bind fun p =>
      .ret (seed1, p.1, p.2)

/-- Go `GenerateDeterministicKeyPair`. -/
def GenerateDeterministicKeyPair (A : Adapter) (fuel : Nat) (seed : Slice) :
    Outcome (Slice × Slice) :=
  (DeterministicKeyPairIterator A fuel seed).bind fun r => .ret (r.2.1, r.2.2)

/-! ## Signing -/

/-- Go `Sign`; `nonce` is what its call of `RandByte(32)` yields.  The copy loop
over `sigBytes` is a runtime error when `sigBytes` is shorter than 64. -/
def Sign (A : Adapter) (nonce msg seckey : Slice) : Outcome Slice :=
  if len seckey ≠ 32 then .panic "Sign, Invalid seckey length"
  else if A.SeckeyIsValid seckey ≠ 1 then .panic "Attempting to sign with invalid seckey"
  else if len msg = 0 then .panic "Sign, message nil"
  else if (A.Sign (A.SetBytes seckey) (A.SetBytes msg) (A.SetBytes nonce)).ret ≠ 1 then
    .panic "Secp25k1-go, Sign, signature operation failed"
  else if len (A.Sign (A.SetBytes seckey) (A.SetBytes msg) (A.SetBytes nonce)).sigBytes < 64 then
    .panic "runtime error: index out of range"
  else if len (A.Sign (A.SetBytes seckey) (A.SetBytes msg) (A.SetBytes nonce)).sigBytes ≠ 64 then
    .fatal "Invalid signature byte count: %d"
  else if (A.Sign (A.SetBytes seckey) (A.SetBytes msg) (A.SetBytes nonce)).recid > 4 then
    .panic ""
  else
    .ret (some
      ((bytes (A.Sign (A.SetBytes seckey) (A.SetBytes msg) (A.SetBytes nonce)).sigBytes).take 64
        ++ [byteOfInt (A.Sign (A.SetBytes seckey) (A.SetBytes msg) (A.SetBytes nonce)).recid]))

/-- Go `SignDeterministic`.  The copy loop over `sigBytes` is a runtime error
when `sigBytes` is shorter than 64. -/
def SignDeterministic (A : Adapter) (msg seckey nonceSeed : Slice) : Outcome Slice :=
  if (A.Sign (A.SetBytes seckey) (A.SetBytes msg)
      (A.SetBytes (A.SumSHA256 nonceSeed))).ret ≠ 1 then
    .panic "Secp256k1-go, SignDeterministic, signature fail"
  else if len (A.Sign (A.SetBytes seckey) (A.SetBytes msg)
      (A.SetBytes (A.SumSHA256 nonceSeed))).sigBytes < 64 then
    .panic "runtime error: index out of range"
  else if len (A.Sign (A.SetBytes seckey) (A.SetBytes msg)
      (A.SetBytes (A.SumSHA256 nonceSeed))).sigBytes ≠ 64 then
    .fatal "Invalid signature byte count: %d"
  else if (A.Sign (A.SetBytes seckey) (A.SetBytes msg)
      (A.SetBytes (A.SumSHA256 nonceSeed))).recid > 4 then
    .panic ""
  else
    .ret (some
      ((bytes (A.Sign (A.SetBytes seckey) (A.SetBytes msg)
          (A.SetBytes (A.SumSHA256 nonceSeed))).sigBytes).take 64
        ++ [byteOfInt (A.Sign (A.SetBytes seckey) (A.SetBytes msg)
          (A.SetBytes (A.SumSHA256 nonceSeed))).recid]))

/-! ## Verification and recovery -/

/-- Go `VerifySignatureValidity`. -/
def VerifySignatureValidity (sig : Slice) : Outcome Int :=
  if len sig ≠ 65 then .fatal "1"
  else if (idx sig 32).val >>> 7 = 1 then .fatal "2"
  else if (idx sig 64).val ≥ 4 then .fatal "3"
  else .ret 1

/-- Go `RecoverPubkey`. -/
def RecoverPubkey (A : Adapter) (msg sig : Slice) : Outcome Slice :=
  if len sig ≠ 65 then .panic ""
  else if (A.RecoverPublicKey (upto sig 64) msg ((idx sig 64).val : Int)).2 ≠ 1 then .ret none
  else if (A.RecoverPublicKey (upto sig 64) msg ((idx sig 64).val : Int)).1 = none then
    .panic "ERROR: impossible, pubkey nil and ret ==1"
  else if len (A.RecoverPublicKey (upto sig 64) msg ((idx sig 64).val : Int)).1 ≠ 33 then
    .panic "pubkey length wrong"
  else .ret (A.RecoverPublicKey (upto sig 64) msg ((idx sig 64).val : Int)).1

/-- Go `VerifySignature`. -/
def VerifySignature (A : Adapter) (msg sig pubkey1 : Slice) : Outcome Int :=
  if msg = none ∨ sig = none ∨ pubkey1 = none then
    .panic "VerifySignature, ERROR: invalid input, nils"
  else if len sig ≠ 65 then .panic "VerifySignature, invalid signature length"
  else if len pubkey1 ≠ 33 then .panic "VerifySignature, invalid pubkey length"
  else if (idx sig 32).val >>> 7 = 1 then .ret 0
  else if (idx sig 64).val ≥ 4 then .ret 0
  else
    (RecoverPubkey A msg sig).bind fun pubkey2 =>
      if pubkey2 = none then .ret 0
      else if len pubkey2 ≠ 33 then .panic "recovered pubkey length invalid"
      else if bytesEqual pubkey1 pubkey2 = false then .ret 0
      else .ret 1

/-- Go `SignatureErrorString`. -/
def SignatureErrorString (A : Adapter) (msg sig pubkey1 : Slice) : Outcome String :=
  if msg = none ∨ len sig ≠ 65 ∨ len pubkey1 ≠ 33 then .panic ""
  else if (idx sig 32).val >>> 7 = 1 then .ret "signature fails malleability requirement"
  else if (idx sig 64).val ≥ 4 then .ret "signature recovery byte is invalid, must be 0 to 3"
  else
    (RecoverPubkey A msg sig).bind fun pubkey2 =>
      if pubkey2 = none then .ret "pubkey from signature failed"
      else if bytesEqual pubkey1 pubkey2 = false then
        .ret "input pubkey and recovered pubkey do not match"
      else .ret "No Error!"

/-! ## Specification-side notions -/

/-- The `k`-th iterate of the digest on a seed: `hashChain A 0 seed` is the seed
itself and each further step digests the previous value. -/
def hashChain (A : Adapter) : Nat → Slice → Slice
  | 0, seed => seed
  | k + 1, seed => A.SumSHA256 (hashChain A k seed)

/-- A key pair that passes both validators and whose public key is the
adapter's base-point multiple of the secret key. -/
def ValidPair (A : Adapter) (pk sk : Slice) : Prop :=
  len sk = 32 ∧ VerifySeckey A sk = 1 ∧ len pk = 33 ∧ VerifyPubkey A pk = 1 ∧
    pk = A.GeneratePublicKey sk

/-- The reference definition of the salted hash, following the specification:
with `h` the digest of the input, the secret key of the pair derived from `h`
and the public key of the pair derived from the digest of `h`, the result is
the digest of `h` followed by the bytes of their ECDH point.  A step that does
not return ends the computation the way that step ended. -/
def Secp256k1HashRef (A : Adapter) (fuel : Nat) (x : Slice) : Outcome Slice :=
  match generateDeterministicKeyPair A fuel (A.SumSHA256 x) with
  | .ret (_, sec1) =>
    match generateDeterministicKeyPair A fuel (A.SumSHA256 (A.SumSHA256 x)) with
    | .ret (pub2, _) =>
      match ECDH A pub2 sec1 with
      | .ret shared => .ret (A.SumSHA256 (some (bytes (A.SumSHA256 x) ++ bytes shared)))
      | .panic m => .panic m
      | .fatal m => .fatal m
      | .outOfFuel => .outOfFuel
    | .panic m => .panic m
    | .fatal m => .fatal m
    | .outOfFuel => .outOfFuel
  | .panic m => .panic m
  | .fatal m => .fatal m
  | .outOfFuel => .outOfFuel

/-- The reference definition of one derivation step, following the
specification: the next seed is the salted hash of the seed, and the key pair
is derived from the digest of the seed followed by the next seed.  A step that
does not return ends the computation the way that step ended. -/
def DeterministicKeyPairIteratorRef (A : Adapter) (fuel : Nat) (seed : Slice) :
    Outcome (Slice × Slice × Slice) :=
  match Secp256k1Hash A fuel seed with
  | .ret nextSeed =>
    match generateDeterministicKeyPair A fuel
        (A.SumSHA256 (some (bytes seed ++ bytes nextSeed))) with
    | .ret (pk, sk) => .ret (nextSeed, pk, sk)
    | .panic m => .panic m
    | .fatal m => .fatal m
    | .outOfFuel => .outOfFuel
  | .panic m => .panic m
  | .fatal m => .fatal m
  | .outOfFuel => .outOfFuel

/-- The same adapter with another point multiplication; everything else,
the validity tests included, is unchanged. -/
def withMultiply (A : Adapter) (mul : Slice → Slice → Slice) : Adapter :=
  { A with Multiply := mul }

/-- A 33-byte buffer of zero bytes. -/
def zeroPubkey : Slice := some (List.replicate 33 0)

/-- The aborts that carry no message, which in `generateDeterministicKeyPair`
are the nil-seed, the seed-length and the seckey/seed mismatch `log.Panic()`
(and in `ECDH` the two length checks), together with the slice-bounds runtime
error of `seed[0:32]`. -/
def GuardAbort {α : Type} (o : Outcome α) : Prop :=
  o = .panic "" ∨ o = .panic "runtime error: slice bounds out of range"

/-! ## A small concrete adapter

Used to evaluate the functions above on concrete inputs.  It is not the curve:
a secret key is valid when it is 32 bytes starting with a byte of at least 2,
its public key is the byte 2 followed by the secret key, a signature carries
the secret key in its `r` half, and the digest is 32 copies of one byte. -/

/-- Big-endian value of a byte string, as `big.Int.SetBytes` computes it. -/
def beNat (s : Slice) : Nat := (bytes s).foldl (fun acc b => acc * 256 + b.val) 0

/-- The 32-byte big-endian encoding of a number. -/
def be32 (n : Nat) : List Byte :=
  (List.range 32).map fun i => Fin.ofNat (n / 256 ^ (31 - i))

/-- The stand-in digest: 32 copies of the byte sum of the input plus one. -/
def toySHA (s : Slice) : Slice :=
  some (List.replicate 32 (Fin.ofNat (((bytes s).map Fin.val).sum + 1)))

/-- The concrete adapter; `sTop` is the first byte of the `s` half of every
signature it makes and `recid` the recovery id it reports. -/
def toyAdapter (sTop : Byte) (recid : Int) : Adapter where
  Number := Nat
  XY := List Byte
  SetBytes := beNat
  SeckeyIsValid := fun s => if len s = 32 ∧ 2 ≤ (idx s 0).val then 1 else 0
  GeneratePublicKey := fun s => some (2 :: bytes s)
  PubkeyIsValid := fun p => if len p = 33 ∧ idx p 0 = 2 then 1 else 0
  ParsePubkey := fun p => (decide (len p = 33), (bytes p).drop 1)
  IsValid := fun xy => decide (xy.length = 32)
  BytesUncompressed := fun xy => some (4 :: xy ++ xy)
  Sign := fun sk _ _ => ⟨1, some (be32 sk ++ sTop :: List.replicate 31 0), recid⟩
  RecoverPublicKey := fun sig _ _ =>
    if len sig = 64 then (some (2 :: (bytes sig).take 32), 1) else (none, 0)
  Multiply := fun pub sec =>
    if len pub = 33 ∧ len sec = 32 then
      some (2 :: List.zipWith (fun a b => a + b) ((bytes pub).drop 1) (bytes sec))
    else none
  SumSHA256 := toySHA

/-- A secret key the concrete adapter accepts: 32 bytes of value 7. -/
def toySeckey : Slice := some (List.replicate 32 7)

/-- A one-byte message. -/
def toyMsg : Slice := some [9]

/-- A nonce: 32 bytes of value 5. -/
def toyNonce : Slice := some (List.replicate 32 5)

/-! ## Engine calls that may abort

Package `secp256k1-go2` has its own `log.Panic` calls, so a call into it may
end the caller instead of returning.  The functions below are `VerifySeckey`,
`VerifyPubkey` and `ECDH` again, over an engine whose calls carry the way they
end. -/

/-- The engine calls made by `VerifySeckey`, `VerifyPubkey` and `ECDH`, each
with the way it ends. -/
structure Engine where
  /-- The type `secp.XY`. -/
  XY : Type
  SeckeyIsValid : Slice → Outcome Int
  PubkeyIsValid : Slice → Outcome Int
  /-- The method `XY.ParsePubkey`: the success flag and the point it leaves in the receiver. -/
  ParsePubkey : Slice → Outcome (Bool × XY)
  /-- The method `XY.IsValid`. -/
  IsValid : XY → Outcome Bool
  Multiply : Slice → Slice → Outcome Slice

namespace Aborting

/-- Go `VerifySeckey`, with an engine call that may abort. -/
def VerifySeckey (E : Engine) (seckey : Slice) : Outcome Int :=
  if len seckey ≠ 32 then .ret (-1)
  else
    (E.SeckeyIsValid seckey).bind fun v =>
      if v ≠ 1 then .ret (-2) else .ret 1

/-- Go `VerifyPubkey`, with engine calls that may abort. -/
def VerifyPubkey (E : Engine) (pubkey : Slice) : Outcome Int :=
  if len pubkey ≠ 33 then .ret (-1)
  else
    (E.PubkeyIsValid pubkey).bind fun v =>
      if v ≠ 1 then .ret (-3)
      else
        (E.ParsePubkey pubkey).bind fun parsed =>
          if parsed.1 = false then .ret (-2)
          else
            (E.IsValid parsed.2).bind fun ok =>
              if ok = false then .ret (-4) else .ret 1

/-- Go `ECDH`, with engine calls that may abort.  The result of
`VerifySeckey(sec)` is only logged. -/
def ECDH (E : Engine) (pub sec : Slice) : Outcome Slice :=
  if len sec ≠ 32 then .panic ""
  else if len pub ≠ 33 then .panic ""
  else
    (VerifySeckey E sec).bind fun _ =>
      (VerifyPubkey E pub).bind fun ret =>
        if ret ≠ 1 then .ret none
        else
          (E.Multiply pub sec).bind fun pubkeyOut =>
            if pubkeyOut = none then .ret none
            else if len pubkeyOut ≠ 33 then .panic "ERROR: impossible, invalid pubkey length"
            else .ret pubkeyOut

end Aborting

/-- The engine all of whose calls return what the adapter gives. -/
def engineOf (A : Adapter) : Engine where
  XY := A.XY
  SeckeyIsValid := fun s => .ret (A.SeckeyIsValid s)
  PubkeyIsValid := fun p => .ret (A.PubkeyIsValid p)
  ParsePubkey := fun p => .ret (A.ParsePubkey p)
  IsValid := fun xy => .ret (A.IsValid xy)
  Multiply := fun pub sec => .ret (A.Multiply pub sec)

/-- A compressed key whose x-coordinate is 32 bytes of 0xff: the byte 0x02
followed by 32 bytes of 0xff. -/
def badPubkey : Slice := some (2 :: List.replicate 32 255)

/-- A concrete engine that aborts on inputs on which the engine of the
repository aborts: its validity test panics on `badPubkey`, its multiplication
panics on the all-zero scalar, and everywhere else it is the concrete adapter.
The message texts are placeholders. -/
def abortingEngine : Engine where
  XY := List Byte
  SeckeyIsValid := fun s => .ret ((toyAdapter 0 0).SeckeyIsValid s)
  PubkeyIsValid := fun p =>
    if p = badPubkey then .panic "secp: invalid point" else .ret ((toyAdapter 0 0).PubkeyIsValid p)
  ParsePubkey := fun p => .ret ((toyAdapter 0 0).ParsePubkey p)
  IsValid := fun xy => .ret ((toyAdapter 0 0).IsValid xy)
  Multiply := fun pub sec =>
    if sec = some (List.replicate 32 0) then .panic "secp: zero scalar"
    else .ret ((toyAdapter 0 0).Multiply pub sec)

/-! ## Basic facts about slices and outcomes -/

theorem len_eq_length (s : Slice) : len s = (bytes s).length := by
  cases s <;> rfl

theorem ne_none_of_len_ne_zero {s : Slice} (h : len s ≠ 0) : s ≠ none := by
  intro hs
  rw [hs] at h
  exact h rfl

theorem some_bytes_of_ne_none {s : Slice} (h : s ≠ none) : some (bytes s) = s := by
  cases s with
  | none => exact absurd rfl h
  | some l => rfl

theorem upto_of_len {s : Slice} {n : Nat} (h : len s = n) (hn : n ≠ 0) : upto s n = s := by
  have hs : s ≠ none := ne_none_of_len_ne_zero (by omega)
  unfold upto
  rw [len_eq_length] at h
  rw [← h, List.take_length]
  exact some_bytes_of_ne_none hs

theorem bytesEqual_self (a : Slice) : bytesEqual a a = true := by
  simp [bytesEqual]

theorem byte_shift_cases (b : Byte) : b.val >>> 7 = 0 ∨ b.val >>> 7 = 1 := by
  have hb := b.isLt
  rw [Nat.shiftRight_eq_div_pow]
  omega

theorem byte_shift_eq_zero_iff (b : Byte) : b.val >>> 7 = 0 ↔ b.val < 128 := by
  have hb := b.isLt
  rw [Nat.shiftRight_eq_div_pow]
  omega

theorem byteOfInt_val {n : Int} (h0 : 0 ≤ n) (h1 : n < 256) : ((byteOfInt n).val : Int) = n := by
  unfold byteOfInt
  simp only [Fin.ofNat, Fin.val_mk]
  omega

/-- The 65-byte layout: a 64-byte body followed by one byte. -/
theorem len_sig_layout {l : List Byte} (b : Byte) (h : l.length = 64) :
    len (some (l.take 64 ++ [b])) = 65 := by
  simp [len, h]

theorem idx_sig_layout_body {l : List Byte} (b : Byte) (h : l.length = 64) {i : Nat}
    (hi : i < 64) : idx (some (l.take 64 ++ [b])) i = l.getD i 0 := by
  have ht : l.take 64 = l := by rw [← h, List.take_length]
  simp only [idx, bytes, ht, List.getD_eq_getElem?_getD]
  rw [List.getElem?_append_left (by omega)]

theorem idx_sig_layout_last {l : List Byte} (b : Byte) (h : l.length = 64) :
    idx (some (l.take 64 ++ [b])) 64 = b := by
  have ht : l.take 64 = l := by rw [← h, List.take_length]
  simp only [idx, bytes, ht, List.getD_eq_getElem?_getD]
  rw [List.getElem?_append_right (by omega)]
  simp [h]

theorem upto_sig_layout {l : List Byte} (b : Byte) (h : l.length = 64) :
    upto (some (l.take 64 ++ [b])) 64 = some l := by
  have ht : l.take 64 = l := by rw [← h, List.take_length]
  simp only [upto, bytes, ht]
  rw [List.take_append_of_le_length (by omega), ← h, List.take_length]

/-- What a returning `pubkeyFromSeckey` has checked. -/
theorem pubkeyFromSeckey_ret {A : Adapter} {sk pk : Slice}
    (h : pubkeyFromSeckey A sk = .ret pk) :
    len sk = 32 ∧ A.SeckeyIsValid sk = 1 ∧ pk = A.GeneratePublicKey sk ∧ pk ≠ none ∧
      len pk = 33 ∧ A.PubkeyIsValid pk = 1 ∧ VerifyPubkey A pk = 1 := by
  unfold pubkeyFromSeckey at h
  split_ifs at h with h1 h2 h3 h4 h5 h6
  cases h
  exact ⟨not_not.mp h1, not_not.mp h2, rfl, h3, not_not.mp h4, not_not.mp h5, not_not.mp h6⟩

/-- What a returning `PubkeyFromSeckey` has checked. -/
theorem PubkeyFromSeckey_ret {A : Adapter} {sk pk : Slice}
    (h : PubkeyFromSeckey A sk = .ret pk) :
    len sk = 32 ∧ A.SeckeyIsValid sk = 1 ∧ pk = A.GeneratePublicKey sk ∧ pk ≠ none ∧
      len pk = 33 ∧ A.PubkeyIsValid pk = 1 ∧ VerifyPubkey A pk = 1 := by
  unfold PubkeyFromSeckey at h
  split_ifs at h with h1
  cases hp : pubkeyFromSeckey A sk with
  | ret p =>
    rw [hp] at h
    simp only [Outcome.bind] at h
    split_ifs at h with h2 h3
    cases h
    exact pubkeyFromSeckey_ret hp
  | panic m => rw [hp] at h; cases h
  | fatal m => rw [hp] at h; cases h
  | outOfFuel => rw [hp] at h; cases h

theorem VerifyPubkey_eq_one {A : Adapter} {pk : Slice} (h : VerifyPubkey A pk = 1) :
    len pk = 33 ∧ A.PubkeyIsValid pk = 1 ∧ (A.ParsePubkey pk).1 = true ∧
      A.IsValid (A.ParsePubkey pk).2 = true := by
  unfold VerifyPubkey at h
  split_ifs at h with h1 h2 h3 h4
  exact ⟨not_not.mp h1, not_not.mp h2, by simpa using h3, by simpa using h4⟩

/-- A valid scalar whose derived key passes `VerifyPubkey` gets that key back. -/
theorem PubkeyFromSeckey_eq_ret {A : Adapter} {sk : Slice} (hsk : len sk = 32)
    (hvalid : A.SeckeyIsValid sk = 1) (hpub : VerifyPubkey A (A.GeneratePublicKey sk) = 1) :
    PubkeyFromSeckey A sk = .ret (A.GeneratePublicKey sk) := by
  obtain ⟨h33, hpv, _, _⟩ := VerifyPubkey_eq_one hpub
  have hnn : A.GeneratePublicKey sk ≠ none := ne_none_of_len_ne_zero (by omega)
  simp [PubkeyFromSeckey, pubkeyFromSeckey, Outcome.bind, hsk, hvalid, hpub, h33, hpv, hnn]

/-- When the guards pass and the adapter signs, `Sign` returns the adapter's
64 bytes followed by the recovery id as one byte. -/
theorem Sign_eq_ret {A : Adapter} {nonce m sk : Slice} {r : SignResult}
    (hsk : len sk = 32) (hvalid : A.SeckeyIsValid sk = 1) (hm : len m ≠ 0)
    (hr : A.Sign (A.SetBytes sk) (A.SetBytes m) (A.SetBytes nonce) = r)
    (hret : r.ret = 1) (hlen : len r.sigBytes = 64) (hrec : r.recid ≤ 4) :
    Sign A nonce m sk = .ret (some ((bytes r.sigBytes).take 64 ++ [byteOfInt r.recid])) := by
  unfold Sign
  rw [hr]
  simp [hsk, hvalid, hm, hret, hlen, not_lt.mpr hrec]

/-- On a signature in the 65-byte layout `RecoverPubkey` hands the adapter the
64-byte body and the last byte as the recovery id. -/
theorem RecoverPubkey_layout (A : Adapter) (m : Slice) {l : List Byte} (b : Byte)
    (h : l.length = 64) {pk : Slice} (hpk : len pk = 33)
    (hrecover : A.RecoverPublicKey (some l) m (b.val : Int) = (pk, 1)) :
    RecoverPubkey A m (some (l.take 64 ++ [b])) = .ret pk := by
  have hnn : pk ≠ none := ne_none_of_len_ne_zero (by omega)
  unfold RecoverPubkey
  rw [upto_sig_layout b h, idx_sig_layout_last b h, hrecover]
  simp [len_sig_layout b h, hpk, hnn]

/-- The three ways `RecoverPubkey` can end on a 65-byte signature. -/
theorem RecoverPubkey_cases (A : Adapter) (m sig : Slice) (hsig : len sig = 65) :
    (RecoverPubkey A m sig = .ret none ∧
        (A.RecoverPublicKey (upto sig 64) m ((idx sig 64).val : Int)).2 ≠ 1) ∨
    ((∃ msg, RecoverPubkey A m sig = .panic msg) ∧
        (A.RecoverPublicKey (upto sig 64) m ((idx sig 64).val : Int)).2 = 1 ∧
        len (A.RecoverPublicKey (upto sig 64) m ((idx sig 64).val : Int)).1 ≠ 33) ∨
    (∃ pk, RecoverPubkey A m sig = .ret pk ∧ pk ≠ none ∧ len pk = 33 ∧
        A.RecoverPublicKey (upto sig 64) m ((idx sig 64).val : Int) = (pk, 1)) := by
  unfold RecoverPubkey
  split_ifs with h1 h2 h3 h4
  · exact absurd hsig h1
  · exact Or.inl ⟨rfl, h2⟩
  · refine Or.inr (Or.inl ⟨⟨_, rfl⟩, not_not.mp h2, ?_⟩)
    rw [h3]
    decide
  · exact Or.inr (Or.inl ⟨⟨_, rfl⟩, not_not.mp h2, h4⟩)
  · refine Or.inr (Or.inr ⟨_, rfl, h3, not_not.mp h4, ?_⟩)
    exact Prod.ext rfl (not_not.mp h2)

/-- With the three guards of `Sign` passed and the adapter signing
successfully, `SignDeterministic` ends the way `Sign` does at the nonce that is
the digest of the nonce seed. -/
theorem SignDeterministic_eq_Sign (A : Adapter) (m sk nonceSeed : Slice)
    (hsk : len sk = 32) (hvalid : A.SeckeyIsValid sk = 1) (hm : len m ≠ 0)
    (hret : (A.Sign (A.SetBytes sk) (A.SetBytes m)
      (A.SetBytes (A.SumSHA256 nonceSeed))).ret = 1) :
    SignDeterministic A m sk nonceSeed = Sign A (A.SumSHA256 nonceSeed) m sk := by
  unfold SignDeterministic Sign
  simp [hsk, hvalid, hm, hret]

/-- `VerifySignatureValidity` never hands 0 back to its caller. -/
theorem VerifySignatureValidity_ne_ret_zero (sig : Slice) :
    VerifySignatureValidity sig ≠ .ret 0 := by
  unfold VerifySignatureValidity
  split_ifs <;> simp

/-- On every input, in or out of the checked domain, `SignatureErrorString`
aborts exactly when `VerifySignature` does. -/
theorem SignatureErrorString_aborts_eq (A : Adapter) (msg sig pk : Slice) :
    (SignatureErrorString A msg sig pk).aborts = (VerifySignature A msg sig pk).aborts := by
  by_cases hd : msg = none ∨ len sig ≠ 65 ∨ len pk ≠ 33
  · have hS : SignatureErrorString A msg sig pk = .panic "" := by
      unfold SignatureErrorString
      rw [if_pos hd]
    have hV : (VerifySignature A msg sig pk).aborts = true := by
      unfold VerifySignature
      split_ifs with h1 h2 h3
      · rfl
      · rfl
      · rfl
      all_goals
        exfalso
        rcases hd with h | h | h
        · exact h1 (Or.inl h)
        · exact h2 h
        · exact h3 h
    rw [hS, hV]
    rfl
  · have hmsg : msg ≠ none := fun h => hd (Or.inl h)
    have hsig : len sig = 65 := by
      by_contra h
      exact hd (Or.inr (Or.inl h))
    have hpk : len pk = 33 := by
      by_contra h
      exact hd (Or.inr (Or.inr h))
    have hsnn : sig ≠ none := ne_none_of_len_ne_zero (by omega)
    have hpnn : pk ≠ none := ne_none_of_len_ne_zero (by omega)
    unfold SignatureErrorString VerifySignature
    simp only [hmsg, hsig, hpk, hsnn, hpnn, or_self, not_true_eq_false, if_false, ne_eq]
    by_cases h32 : (idx sig 32).val >>> 7 = 1
    · simp [h32, Outcome.aborts]
    by_cases h64 : (idx sig 64).val ≥ 4
    · simp [h32, h64, Outcome.aborts]
    rcases RecoverPubkey_cases A msg sig hsig with
      ⟨hR, _⟩ | ⟨⟨m, hR⟩, _, _⟩ | ⟨p, hR, hnn, hl, _⟩
    · simp [h32, h64, hR, Outcome.bind, Outcome.aborts]
    · simp [h32, h64, hR, Outcome.bind, Outcome.aborts]
    · by_cases hb : bytesEqual pk p = true <;>
        simp [h32, h64, hR, Outcome.bind, hnn, hl, hb, Outcome.aborts]

/-! ## The derivation loop -/

theorem hashChain_succ_left (A : Adapter) (k : Nat) (seed : Slice) :
    hashChain A (k + 1) seed = hashChain A k (A.SumSHA256 seed) := by
  induction k with
  | zero => rfl
  | succ n ih =>
    show A.SumSHA256 (hashChain A (n + 1) seed) = A.SumSHA256 (hashChain A n (A.SumSHA256 seed))
    rw [ih]

/-- One pass through `new_seckey` on a 32-byte seed whose digest is 32 bytes:
the digest is the candidate key, a rejected candidate becomes the next seed and
an accepted one is checked and returned with its public key. -/
theorem loop_step (A : Adapter) (fuel : Nat) (seed : Slice) (hseed : len seed = 32)
    (hd : len (A.SumSHA256 seed) = 32) :
    generateDeterministicKeyPairLoop A (fuel + 1) seed =
      if A.SeckeyIsValid (A.SumSHA256 seed) ≠ 1 then
        generateDeterministicKeyPairLoop A fuel (A.SumSHA256 seed)
      else if A.GeneratePublicKey (A.SumSHA256 seed) = none then
        .panic "ERROR: impossible, secp.BaseMultiply always returns true"
      else if len (A.GeneratePublicKey (A.SumSHA256 seed)) ≠ 33 then
        .panic "ERROR: impossible, pubkey length wrong"
      else if A.PubkeyIsValid (A.GeneratePublicKey (A.SumSHA256 seed)) ≠ 1 then
        .panic "ERROR: pubkey invalid, ret=%d"
      else if VerifyPubkey A (A.GeneratePublicKey (A.SumSHA256 seed)) ≠ 1 then
        .panic "ERROR: pubkey is invalid, for deterministic. ret=%d"
      else .ret (A.GeneratePublicKey (A.SumSHA256 seed), A.SumSHA256 seed) := by
  have h1 : upto seed 32 = seed := upto_of_len hseed (by omega)
  have h2 : upto (A.SumSHA256 seed) 32 = A.SumSHA256 seed := upto_of_len hd (by omega)
  rw [generateDeterministicKeyPairLoop, h1, h2]
  simp [hd, bytesEqual_self]

theorem loop_step_invalid (A : Adapter) (fuel : Nat) (seed : Slice) (hseed : len seed = 32)
    (hd : len (A.SumSHA256 seed) = 32) (hinv : A.SeckeyIsValid (A.SumSHA256 seed) ≠ 1) :
    generateDeterministicKeyPairLoop A (fuel + 1) seed =
      generateDeterministicKeyPairLoop A fuel (A.SumSHA256 seed) := by
  rw [loop_step A fuel seed hseed hd, if_pos hinv]

theorem loop_step_valid (A : Adapter) (fuel : Nat) (seed : Slice) (hseed : len seed = 32)
    (hd : len (A.SumSHA256 seed) = 32) (hv : A.SeckeyIsValid (A.SumSHA256 seed) = 1)
    (hpub : VerifyPubkey A (A.GeneratePublicKey (A.SumSHA256 seed)) = 1) :
    generateDeterministicKeyPairLoop A (fuel + 1) seed =
      .ret (A.GeneratePublicKey (A.SumSHA256 seed), A.SumSHA256 seed) := by
  obtain ⟨h33, hpv, _, _⟩ := VerifyPubkey_eq_one hpub
  have hnn : A.GeneratePublicKey (A.SumSHA256 seed) ≠ none :=
    ne_none_of_len_ne_zero (by omega)
  rw [loop_step A fuel seed hseed hd]
  simp [hv, hnn, h33, hpv, hpub]

/-- The loop returns the first accepted iterate of the digest. -/
theorem loop_least (A : Adapter) (hsha : ∀ x, len (A.SumSHA256 x) = 32) :
    ∀ (k fuel : Nat) (seed : Slice), len seed = 32 → 1 ≤ k →
      A.SeckeyIsValid (hashChain A k seed) = 1 →
      (∀ j, 1 ≤ j → j < k → A.SeckeyIsValid (hashChain A j seed) ≠ 1) →
      VerifyPubkey A (A.GeneratePublicKey (hashChain A k seed)) = 1 →
      k ≤ fuel →
      generateDeterministicKeyPairLoop A fuel seed =
        .ret (A.GeneratePublicKey (hashChain A k seed), hashChain A k seed) := by
  intro k
  induction k with
  | zero => intro fuel seed _ hk; omega
  | succ n ih =>
    intro fuel seed hseed _ hv hleast hpub hfuel
    obtain ⟨f, rfl⟩ : ∃ f, fuel = f + 1 := ⟨fuel - 1, by omega⟩
    rcases Nat.eq_zero_or_pos n with hn | hn
    · subst hn
      exact loop_step_valid A f seed hseed (hsha seed) hv hpub
    · have hinv : A.SeckeyIsValid (A.SumSHA256 seed) ≠ 1 := hleast 1 (le_refl 1) (by omega)
      rw [loop_step_invalid A f seed hseed (hsha seed) hinv, hashChain_succ_left]
      rw [hashChain_succ_left] at hv hpub
      refine ih f (A.SumSHA256 seed) (hsha seed) hn hv ?_ hpub (by omega)
      intro j hj1 hjn
      rw [← hashChain_succ_left]
      exact hleast (j + 1) (by omega) (by omega)

theorem toySHA_len (x : Slice) : len (toySHA x) = 32 := by
  simp [toySHA, len]

/-! ## Returned key pairs -/

theorem Outcome.bind_eq_ret {α β : Type} {o : Outcome α} {g : α → Outcome β} {b : β} :
    o.bind g = .ret b ↔ ∃ a, o = .ret a ∧ g a = .ret b := by
  cases o <;> simp [Outcome.bind]

theorem VerifySeckey_eq_one {A : Adapter} {sk : Slice} (h1 : len sk = 32)
    (h2 : A.SeckeyIsValid sk = 1) : VerifySeckey A sk = 1 := by
  simp [VerifySeckey, h1, h2]

/-- Whatever the loop returns is a valid pair. -/
theorem loop_ret_valid (A : Adapter) :
    ∀ (fuel : Nat) (seed pk sk : Slice),
      generateDeterministicKeyPairLoop A fuel seed = .ret (pk, sk) → ValidPair A pk sk := by
  intro fuel
  induction fuel with
  | zero =>
    intro seed pk sk h
    rw [generateDeterministicKeyPairLoop] at h
    cases h
  | succ f ih =>
    intro seed pk sk h
    rw [generateDeterministicKeyPairLoop] at h
    split_ifs at h with h1 h2 h3 h4 h5 h6 h7
    · exact ih _ _ _ h
    · cases h
      have hl : len (upto (A.SumSHA256 (upto seed 32)) 32) = 32 := by
        show ((bytes (A.SumSHA256 (upto seed 32))).take 32).length = 32
        rw [len_eq_length] at h1
        rw [List.length_take]
        omega
      exact ⟨hl, VerifySeckey_eq_one hl (not_not.mp h3), not_not.mp h5, not_not.mp h7, rfl⟩

/-- More fuel does not change what the loop returns. -/
theorem loop_mono_succ (A : Adapter) :
    ∀ (fuel : Nat) (seed : Slice) (r : Slice × Slice),
      generateDeterministicKeyPairLoop A fuel seed = .ret r →
      generateDeterministicKeyPairLoop A (fuel + 1) seed = .ret r := by
  intro fuel
  induction fuel with
  | zero =>
    intro seed r h
    rw [generateDeterministicKeyPairLoop] at h
    cases h
  | succ f ih =>
    intro seed r h
    rw [generateDeterministicKeyPairLoop] at h ⊢
    split_ifs at h ⊢ with h1 h2 h3 h4 h5 h6 h7
    · exact ih _ _ h
    · exact h

theorem loop_mono (A : Adapter) (seed : Slice) (r : Slice × Slice) {f g : Nat} (hfg : f ≤ g)
    (h : generateDeterministicKeyPairLoop A f seed = .ret r) :
    generateDeterministicKeyPairLoop A g seed = .ret r := by
  induction hfg with
  | refl => exact h
  | step _ ih => exact loop_mono_succ A _ seed r ih

theorem gen_ret_loop {A : Adapter} {fuel : Nat} {seed : Slice} {r : Slice × Slice}
    (h : generateDeterministicKeyPair A fuel seed = .ret r) :
    seed ≠ none ∧ len seed = 32 ∧ generateDeterministicKeyPairLoop A fuel seed = .ret r := by
  unfold generateDeterministicKeyPair at h
  split_ifs at h with h1 h2
  exact ⟨h1, not_not.mp h2, h⟩

theorem gen_ret_valid {A : Adapter} {fuel : Nat} {seed pk sk : Slice}
    (h : generateDeterministicKeyPair A fuel seed = .ret (pk, sk)) : ValidPair A pk sk :=
  loop_ret_valid A fuel seed pk sk (gen_ret_loop h).2.2

theorem gen_mono {A : Adapter} {seed : Slice} {r : Slice × Slice} {f g : Nat} (hfg : f ≤ g)
    (h : generateDeterministicKeyPair A f seed = .ret r) :
    generateDeterministicKeyPair A g seed = .ret r := by
  obtain ⟨h1, h2, h3⟩ := gen_ret_loop h
  unfold generateDeterministicKeyPair
  rw [if_neg h1, if_neg (not_not.mpr h2)]
  exact loop_mono A seed r hfg h3

theorem hash_mono {A : Adapter} {x r : Slice} {f g : Nat} (hfg : f ≤ g)
    (h : Secp256k1Hash A f x = .ret r) : Secp256k1Hash A g x = .ret r := by
  unfold Secp256k1Hash at h ⊢
  obtain ⟨p1, hp1, h⟩ := Outcome.bind_eq_ret.mp h
  obtain ⟨p2, hp2, h⟩ := Outcome.bind_eq_ret.mp h
  rw [gen_mono hfg hp1, Outcome.bind, gen_mono hfg hp2, Outcome.bind]
  exact h

theorem iterator_ret {A : Adapter} {fuel : Nat} {seedIn : Slice} {r : Slice × Slice × Slice}
    (h : DeterministicKeyPairIterator A fuel seedIn = .ret r) :
    Secp256k1Hash A fuel seedIn = .ret r.1 ∧
      generateDeterministicKeyPair A fuel (A.SumSHA256 (goAppend seedIn r.1))
        = .ret (r.2.1, r.2.2) := by
  unfold DeterministicKeyPairIterator at h
  obtain ⟨s1, hs1, h⟩ := Outcome.bind_eq_ret.mp h
  obtain ⟨p, hp, h⟩ := Outcome.bind_eq_ret.mp h
  cases h
  exact ⟨hs1, hp⟩

theorem iterator_mono {A : Adapter} {seedIn : Slice} {r : Slice × Slice × Slice} {f g : Nat}
    (hfg : f ≤ g) (h : DeterministicKeyPairIterator A f seedIn = .ret r) :
    DeterministicKeyPairIterator A g seedIn = .ret r := by
  obtain ⟨h1, h2⟩ := iterator_ret h
  unfold DeterministicKeyPairIterator
  rw [hash_mono hfg h1, Outcome.bind, gen_mono hfg h2, Outcome.bind]

/-- Whatever `GenerateKeyPair` returns is a valid pair whose secret key is the
first draw the adapter accepts. -/
theorem GenerateKeyPair_ret (A : Adapter) (rand : Nat → Slice) :
    ∀ (fuel i : Nat) (pk sk : Slice), GenerateKeyPair A rand fuel i = .ret (pk, sk) →
      ValidPair A pk sk ∧ ∃ k, sk = rand (i + k) ∧ A.SeckeyIsValid (rand (i + k)) = 1 ∧
        ∀ j, j < k → A.SeckeyIsValid (rand (i + j)) ≠ 1 := by
  intro fuel
  induction fuel with
  | zero =>
    intro i pk sk h
    rw [GenerateKeyPair] at h
    cases h
  | succ f ih =>
    intro i pk sk h
    rw [GenerateKeyPair] at h
    split_ifs at h with h1
    · obtain ⟨hv, k, hk1, hk2, hk3⟩ := ih (i + 1) pk sk h
      refine ⟨hv, k + 1, ?_, ?_, ?_⟩
      · rw [hk1]; congr 1; omega
      · rw [← hk2]; congr 2; omega
      · intro j hj
        rcases Nat.eq_zero_or_pos j with hj0 | hj0
        · subst hj0; exact h1
        · have := hk3 (j - 1) (by omega)
          have e : i + 1 + (j - 1) = i + j := by omega
          rw [e] at this
          exact this
    · obtain ⟨p, hp, h⟩ := Outcome.bind_eq_ret.mp h
      split_ifs at h with h2 h3
      cases h
      obtain ⟨a1, a2, a3, _, a5, _, a7⟩ := pubkeyFromSeckey_ret hp
      exact ⟨⟨a1, VerifySeckey_eq_one a1 a2, a5, a7, a3⟩, 0, rfl, a2, fun j hj => by omega⟩

theorem GenerateKeyPair_mono_succ (A : Adapter) (rand : Nat → Slice) :
    ∀ (fuel i : Nat) (r : Slice × Slice), GenerateKeyPair A rand fuel i = .ret r →
      GenerateKeyPair A rand (fuel + 1) i = .ret r := by
  intro fuel
  induction fuel with
  | zero =>
    intro i r h
    rw [GenerateKeyPair] at h
    cases h
  | succ f ih =>
    intro i r h
    rw [GenerateKeyPair] at h ⊢
    split_ifs at h ⊢ with h1
    · exact ih _ _ h
    · exact h

theorem GenerateKeyPair_mono (A : Adapter) (rand : Nat → Slice) (i : Nat) (r : Slice × Slice)
    {f g : Nat} (hfg : f ≤ g) (h : GenerateKeyPair A rand f i = .ret r) :
    GenerateKeyPair A rand g i = .ret r := by
  induction hfg with
  | refl => exact h
  | step _ ih => exact GenerateKeyPair_mono_succ A rand _ i r ih

theorem goAppend_of_ne_none {a : Slice} (b : Slice) (h : a ≠ none) :
    goAppend a b = some (bytes a ++ bytes b) := by
  cases a with
  | none => exact absurd rfl h
  | some l => rfl

theorem ret_unique {α : Type} {o : Outcome α} {a b : α} (h1 : o = .ret a) (h2 : o = .ret b) :
    a = b := by
  rw [h1] at h2
  cases h2
  rfl

/-! ## Derivation steps -/

theorem goAppend_of_len_ne_zero (a : Slice) {b : Slice} (h : len b ≠ 0) :
    goAppend a b = some (bytes a ++ bytes b) := by
  cases a with
  | some l => rfl
  | none =>
    cases b with
    | none => exact absurd rfl h
    | some l =>
      cases l with
      | nil => exact absurd rfl h
      | cons x xs => rfl

/-- What `Secp256k1Hash` returns is a digest. -/
theorem hash_ret_len {A : Adapter} (hsha : ∀ y, len (A.SumSHA256 y) = 32) {fuel : Nat}
    {x r : Slice} (h : Secp256k1Hash A fuel x = .ret r) : len r = 32 := by
  unfold Secp256k1Hash at h
  obtain ⟨p1, _, h⟩ := Outcome.bind_eq_ret.mp h
  obtain ⟨p2, _, h⟩ := Outcome.bind_eq_ret.mp h
  obtain ⟨e, _, h⟩ := Outcome.bind_eq_ret.mp h
  cases h
  exact hsha _

/-! ## ECDH and the public-key classifier -/

/-- With both lengths right, `ECDH` is decided by `VerifyPubkey` and the
adapter's product; the validity of the secret key plays no part. -/
theorem ECDH_of_lengths (A : Adapter) {pub sec : Slice} (hpub : len pub = 33)
    (hsec : len sec = 32) :
    ECDH A pub sec =
      if VerifyPubkey A pub ≠ 1 then .ret none
      else if A.Multiply pub sec = none then .ret none
      else if len (A.Multiply pub sec) ≠ 33 then
        .panic "ERROR: impossible, invalid pubkey length"
      else .ret (A.Multiply pub sec) := by
  unfold ECDH
  rw [if_neg (not_not.mpr hsec), if_neg (not_not.mpr hpub)]

theorem VerifyPubkey_withMultiply (A : Adapter) (mul : Slice → Slice → Slice) (pk : Slice) :
    VerifyPubkey (withMultiply A mul) pk = VerifyPubkey A pk := rfl

/-- `VerifyPubkey` never returns 0. -/
theorem VerifyPubkey_ne_zero (A : Adapter) (pk : Slice) : VerifyPubkey A pk ≠ 0 := by
  unfold VerifyPubkey
  split_ifs <;> decide

/-! ## Guards that digests always pass -/

theorem not_guardAbort_ret {α : Type} (a : α) : ¬ GuardAbort (Outcome.ret a) := by
  rintro (h | h) <;> cases h

theorem not_guardAbort_bind {α β : Type} {o : Outcome α} {g : α → Outcome β}
    (ho : ¬ GuardAbort o) (hg : ∀ a, o = .ret a → ¬ GuardAbort (g a)) :
    ¬ GuardAbort (o.bind g) := by
  cases o with
  | ret a => exact hg a rfl
  | panic m =>
    rintro (h | h)
    · exact ho (Or.inl (by simpa [Outcome.bind] using h))
    · exact ho (Or.inr (by simpa [Outcome.bind] using h))
  | fatal m => rintro (h | h) <;> cases h
  | outOfFuel => rintro (h | h) <;> cases h

/-- On a 32-byte seed, with 32-byte digests, the loop never ends in one of its
message-less aborts. -/
theorem loop_not_guardAbort (A : Adapter) (hsha : ∀ y, len (A.SumSHA256 y) = 32) :
    ∀ (fuel : Nat) (seed : Slice), len seed = 32 →
      ¬ GuardAbort (generateDeterministicKeyPairLoop A fuel seed) := by
  intro fuel
  induction fuel with
  | zero =>
    intro seed _
    rw [generateDeterministicKeyPairLoop]
    rintro (h | h) <;> cases h
  | succ f ih =>
    intro seed hseed
    rw [loop_step A f seed hseed (hsha seed)]
    split_ifs
    · exact ih _ (hsha seed)
    all_goals
      rintro (h | h) <;> simp at h

theorem gen_not_guardAbort (A : Adapter) (hsha : ∀ y, len (A.SumSHA256 y) = 32)
    (fuel : Nat) (y : Slice) :
    ¬ GuardAbort (generateDeterministicKeyPair A fuel (A.SumSHA256 y)) := by
  have hnn : A.SumSHA256 y ≠ none := ne_none_of_len_ne_zero (by rw [hsha]; omega)
  unfold generateDeterministicKeyPair
  rw [if_neg hnn, if_neg (not_not.mpr (hsha y))]
  exact loop_not_guardAbort A hsha fuel _ (hsha y)

/-- On a validated secret key and public key `ECDH` is decided by the adapter's
product alone. -/
theorem ECDH_of_valid (A : Adapter) {pub sec : Slice} (hpub : VerifyPubkey A pub = 1)
    (hsec : len sec = 32) :
    ECDH A pub sec =
      if A.Multiply pub sec = none then .ret none
      else if len (A.Multiply pub sec) ≠ 33 then
        .panic "ERROR: impossible, invalid pubkey length"
      else .ret (A.Multiply pub sec) := by
  rw [ECDH_of_lengths A (VerifyPubkey_eq_one hpub).1 hsec]
  simp [hpub]

theorem hash_not_guardAbort (A : Adapter) (hsha : ∀ y, len (A.SumSHA256 y) = 32)
    (fuel : Nat) (x : Slice) : ¬ GuardAbort (Secp256k1Hash A fuel x) := by
  unfold Secp256k1Hash
  refine not_guardAbort_bind (gen_not_guardAbort A hsha fuel x) ?_
  intro p1 h1
  refine not_guardAbort_bind (gen_not_guardAbort A hsha fuel _) ?_
  intro p2 h2
  have v1 : ValidPair A p1.1 p1.2 := gen_ret_valid h1
  have v2 : ValidPair A p2.1 p2.2 := gen_ret_valid h2
  refine not_guardAbort_bind ?_ (fun e _ => not_guardAbort_ret _)
  rw [ECDH_of_valid A v2.2.2.2.1 v1.1]
  split_ifs
  all_goals
    rintro (h | h) <;> simp at h

theorem iterator_not_guardAbort (A : Adapter) (hsha : ∀ y, len (A.SumSHA256 y) = 32)
    (fuel : Nat) (seed : Slice) : ¬ GuardAbort (DeterministicKeyPairIterator A fuel seed) := by
  unfold DeterministicKeyPairIterator
  refine not_guardAbort_bind (hash_not_guardAbort A hsha fuel seed) ?_
  intro seed1 _
  exact not_guardAbort_bind (gen_not_guardAbort A hsha fuel _) (fun p _ => not_guardAbort_ret _)

/-- Where the engine's calls return: for a 33-byte public key and a 32-byte secret, when `VerifyPubkey`
does not return 1 `ECDH` returns nil whatever the adapter's multiplication is
(so the result owes nothing to it), and when `VerifyPubkey` returns 1 `ECDH`
returns the adapter's product if that is a 33-byte point and nil if the adapter
produces none. -/
theorem ECDH_untrusted_pubkey_returning (A : Adapter) (pub sec : Slice)
    (hpub : len pub = 33) (hsec : len sec = 32) :
    (VerifyPubkey A pub ≠ 1 → ECDH A pub sec = .ret none) ∧
    (VerifyPubkey A pub ≠ 1 → ∀ mul, ECDH (withMultiply A mul) pub sec = .ret none) ∧
    (VerifyPubkey A pub = 1 → len (A.Multiply pub sec) = 33 →
      ECDH A pub sec = .ret (A.Multiply pub sec)) ∧
    (VerifyPubkey A pub = 1 → A.Multiply pub sec = none → ECDH A pub sec = .ret none) := by
  refine ⟨?_, ?_, ?_, ?_⟩
  · intro h
    rw [ECDH_of_lengths A hpub hsec, if_pos h]
  · intro h mul
    rw [ECDH_of_lengths (withMultiply A mul) hpub hsec, VerifyPubkey_withMultiply, if_pos h]
  · intro h hl
    have hnn : A.Multiply pub sec ≠ none := ne_none_of_len_ne_zero (by omega)
    rw [ECDH_of_lengths A hpub hsec]
    simp [h, hnn, hl]
  · intro h hn
    rw [ECDH_of_lengths A hpub hsec]
    simp [h, hn]

/-- Where the engine's calls return, `VerifyPubkey` classifies.  Its result is one of 1, -1, -2,
-3, -4; it is -1 exactly when the length is not 33; on 33 bytes it is -3 when
the adapter's validity test rejects, else -2 when parsing fails, else -4 when
the parsed point fails validation, else 1; so it is 1 exactly when the length
is 33 and all three adapter checks pass.  The 33-byte all-zero buffer never gets
-1 and gets one of -2, -3, -4 whenever the adapter rejects it at some check. -/
theorem VerifyPubkey_classifier_returning (A : Adapter) (pk : Slice) :
    (VerifyPubkey A pk = 1 ∨ VerifyPubkey A pk = -1 ∨ VerifyPubkey A pk = -2 ∨
      VerifyPubkey A pk = -3 ∨ VerifyPubkey A pk = -4) ∧
    (VerifyPubkey A pk = -1 ↔ len pk ≠ 33) ∧
    (len pk = 33 → A.PubkeyIsValid pk ≠ 1 → VerifyPubkey A pk = -3) ∧
    (len pk = 33 → A.PubkeyIsValid pk = 1 → (A.ParsePubkey pk).1 = false →
      VerifyPubkey A pk = -2) ∧
    (len pk = 33 → A.PubkeyIsValid pk = 1 → (A.ParsePubkey pk).1 = true →
      A.IsValid (A.ParsePubkey pk).2 = false → VerifyPubkey A pk = -4) ∧
    (VerifyPubkey A pk = 1 ↔ len pk = 33 ∧ A.PubkeyIsValid pk = 1 ∧
      (A.ParsePubkey pk).1 = true ∧ A.IsValid (A.ParsePubkey pk).2 = true) ∧
    VerifyPubkey A zeroPubkey ≠ -1 ∧
    (¬ (A.PubkeyIsValid zeroPubkey = 1 ∧ (A.ParsePubkey zeroPubkey).1 = true ∧
        A.IsValid (A.ParsePubkey zeroPubkey).2 = true) →
      VerifyPubkey A zeroPubkey = -2 ∨ VerifyPubkey A zeroPubkey = -3 ∨
        VerifyPubkey A zeroPubkey = -4) := by
  have hz : len zeroPubkey = 33 := by decide
  have key : ∀ q : Slice,
      (VerifyPubkey A q = 1 ∨ VerifyPubkey A q = -1 ∨ VerifyPubkey A q = -2 ∨
        VerifyPubkey A q = -3 ∨ VerifyPubkey A q = -4) ∧
      (VerifyPubkey A q = -1 ↔ len q ≠ 33) ∧
      (VerifyPubkey A q = 1 ↔ len q = 33 ∧ A.PubkeyIsValid q = 1 ∧
        (A.ParsePubkey q).1 = true ∧ A.IsValid (A.ParsePubkey q).2 = true) := by
    intro q
    unfold VerifyPubkey
    split_ifs with h1 h2 h3 h4 <;> simp_all
  refine ⟨(key pk).1, (key pk).2.1, ?_, ?_, ?_, (key pk).2.2, ?_, ?_⟩
  · intro h1 h2
    simp [VerifyPubkey, h1, h2]
  · intro h1 h2 h3
    simp [VerifyPubkey, h1, h2, h3]
  · intro h1 h2 h3 h4
    simp [VerifyPubkey, h1, h2, h3, h4]
  · intro h
    exact ((key zeroPubkey).2.1.mp h) hz
  · intro hrej
    rcases (key zeroPubkey).1 with h | h | h | h | h
    · exact absurd ((key zeroPubkey).2.2.mp h).2 hrej
    · exact absurd hz ((key zeroPubkey).2.1.mp h)
    · exact Or.inl h
    · exact Or.inr (Or.inl h)
    · exact Or.inr (Or.inr h)

/-! ## Engines whose calls return -/

theorem Aborting_VerifySeckey_engineOf (A : Adapter) (sk : Slice) :
    Aborting.VerifySeckey (engineOf A) sk = .ret (VerifySeckey A sk) := by
  unfold Aborting.VerifySeckey VerifySeckey
  split_ifs <;> simp_all [engineOf, Outcome.bind]

theorem Aborting_VerifyPubkey_engineOf (A : Adapter) (pk : Slice) :
    Aborting.VerifyPubkey (engineOf A) pk = .ret (VerifyPubkey A pk) := by
  unfold Aborting.VerifyPubkey VerifyPubkey
  split_ifs <;> simp_all [engineOf, Outcome.bind]

/-- Over an engine whose calls all return, `ECDH` with abort-carrying calls is
the `ECDH` over the adapter. -/
theorem Aborting_ECDH_engineOf (A : Adapter) (pub sec : Slice) :
    Aborting.ECDH (engineOf A) pub sec = ECDH A pub sec := by
  unfold Aborting.ECDH ECDH
  rw [Aborting_VerifySeckey_engineOf, Aborting_VerifyPubkey_engineOf]
  split_ifs <;> simp_all [engineOf, Outcome.bind]

/-! ## Claims -/

/-- C1: sign/verify round trip.  For a non-empty message, a 32-byte secret key
the adapter accepts and whose derived key passes `VerifyPubkey`, and any nonce,
if the engine keeps its contract at this input (it signs successfully with 64
bytes in low-s form, that is with the top bit of byte 32 clear, and a recovery
id in 0..3, and its recover applied to those bytes and that id returns the
derived public key), then `VerifySignature` of the message, the output of
`Sign` and the output of `PubkeyFromSeckey` returns 1. -/
theorem C1_sign_verify_roundtrip (A : Adapter) (nonce m sk : Slice) (r : SignResult)
    (hsk : len sk = 32) (hvalid : A.SeckeyIsValid sk = 1) (hm : len m ≠ 0)
    (hpub : VerifyPubkey A (A.GeneratePublicKey sk) = 1)
    (hr : A.Sign (A.SetBytes sk) (A.SetBytes m) (A.SetBytes nonce) = r)
    (hret : r.ret = 1) (hlen : len r.sigBytes = 64)
    (hrec0 : 0 ≤ r.recid) (hrec4 : r.recid < 4)
    (hlow : (idx r.sigBytes 32).val >>> 7 = 0)
    (hrecover : A.RecoverPublicKey r.sigBytes m r.recid = (A.GeneratePublicKey sk, 1)) :
    ((Sign A nonce m sk).bind fun sig =>
      (PubkeyFromSeckey A sk).bind fun pk => VerifySignature A m sig pk) = .ret 1 := by
  obtain ⟨h33, _, _, _⟩ := VerifyPubkey_eq_one hpub
  have hl : (bytes r.sigBytes).length = 64 := by rw [← len_eq_length]; exact hlen
  have hsb : some (bytes r.sigBytes) = r.sigBytes :=
    some_bytes_of_ne_none (ne_none_of_len_ne_zero (by omega))
  have hb : ((byteOfInt r.recid).val : Int) = r.recid := byteOfInt_val hrec0 (by omega)
  have hrp : RecoverPubkey A m
      (some ((bytes r.sigBytes).take 64 ++ [byteOfInt r.recid])) = .ret (A.GeneratePublicKey sk) :=
    RecoverPubkey_layout A m _ hl h33 (by rw [hsb, hb]; exact hrecover)
  have hpknn : A.GeneratePublicKey sk ≠ none := ne_none_of_len_ne_zero (by omega)
  have hmnn : m ≠ none := ne_none_of_len_ne_zero hm
  have h32 : (idx (some ((bytes r.sigBytes).take 64 ++ [byteOfInt r.recid])) 32).val >>> 7 ≠ 1 := by
    rw [idx_sig_layout_body _ hl (by omega)]
    have : (idx r.sigBytes 32) = (bytes r.sigBytes).getD 32 0 := rfl
    rw [← this, hlow]
    omega
  have h64 : ¬ (idx (some ((bytes r.sigBytes).take 64 ++ [byteOfInt r.recid])) 64).val ≥ 4 := by
    rw [idx_sig_layout_last _ hl]
    have : ((byteOfInt r.recid).val : Int) < 4 := by rw [hb]; exact hrec4
    omega
  rw [Sign_eq_ret hsk hvalid hm hr hret hlen (by omega), PubkeyFromSeckey_eq_ret hsk hvalid hpub]
  simp only [Outcome.bind]
  unfold VerifySignature
  rw [hrp]
  simp [Outcome.bind, hmnn, hpknn, h33, len_sig_layout _ hl, h32, h64, bytesEqual_self]

/-- Witness for C1: the concrete adapter, whose signatures are in low-s form. -/
theorem C1_sign_verify_roundtrip_witness :
    ((Sign (toyAdapter 0 0) toyNonce toyMsg toySeckey).bind fun sig =>
      (PubkeyFromSeckey (toyAdapter 0 0) toySeckey).bind fun pk =>
        VerifySignature (toyAdapter 0 0) toyMsg sig pk) = .ret 1 :=
  C1_sign_verify_roundtrip (toyAdapter 0 0) toyNonce toyMsg toySeckey _
    (by decide) (by decide) (by decide) (by decide) rfl (by decide) (by decide) (by decide)
    (by decide) (by decide) (by decide)

/-- C2: for a non-empty message, a 32-byte secret key the adapter accepts and
whose derived key passes `VerifyPubkey`, and any nonce, if the adapter signs
successfully with 64 bytes and a recovery id in 0..3 and its recover applied to
those bytes and that id returns the derived public key, then `Sign` returns a
65-byte signature whose first 64 bytes are the adapter's and whose byte 64 is
the recovery id, and `RecoverPubkey` on it returns the non-nil 33-byte key
`PubkeyFromSeckey` returns. -/
theorem C2_recover_roundtrip (A : Adapter) (nonce m sk : Slice) (r : SignResult)
    (hsk : len sk = 32) (hvalid : A.SeckeyIsValid sk = 1) (hm : len m ≠ 0)
    (hpub : VerifyPubkey A (A.GeneratePublicKey sk) = 1)
    (hr : A.Sign (A.SetBytes sk) (A.SetBytes m) (A.SetBytes nonce) = r)
    (hret : r.ret = 1) (hlen : len r.sigBytes = 64)
    (hrec0 : 0 ≤ r.recid) (hrec4 : r.recid < 4)
    (hrecover : A.RecoverPublicKey r.sigBytes m r.recid = (A.GeneratePublicKey sk, 1)) :
    ∃ sig pk, Sign A nonce m sk = .ret sig ∧ PubkeyFromSeckey A sk = .ret pk ∧
      RecoverPubkey A m sig = .ret pk ∧ pk ≠ none ∧ len pk = 33 ∧
      len sig = 65 ∧ upto sig 64 = r.sigBytes ∧ ((idx sig 64).val : Int) = r.recid := by
  obtain ⟨h33, _, _, _⟩ := VerifyPubkey_eq_one hpub
  have hl : (bytes r.sigBytes).length = 64 := by rw [← len_eq_length]; exact hlen
  have hsb : some (bytes r.sigBytes) = r.sigBytes :=
    some_bytes_of_ne_none (ne_none_of_len_ne_zero (by omega))
  have hb : ((byteOfInt r.recid).val : Int) = r.recid := byteOfInt_val hrec0 (by omega)
  refine ⟨_, _, Sign_eq_ret hsk hvalid hm hr hret hlen (by omega),
    PubkeyFromSeckey_eq_ret hsk hvalid hpub,
    RecoverPubkey_layout A m _ hl h33 (by rw [hsb, hb]; exact hrecover),
    ne_none_of_len_ne_zero (by omega), h33, len_sig_layout _ hl, ?_, ?_⟩
  · rw [upto_sig_layout _ hl, hsb]
  · rw [idx_sig_layout_last _ hl, hb]

/-- Witness for C2: the concrete adapter, recovery id 3. -/
theorem C2_recover_roundtrip_witness :
    ∃ sig pk, Sign (toyAdapter 0 3) toyNonce toyMsg toySeckey = .ret sig ∧
      PubkeyFromSeckey (toyAdapter 0 3) toySeckey = .ret pk ∧
      RecoverPubkey (toyAdapter 0 3) toyMsg sig = .ret pk ∧ pk ≠ none ∧ len pk = 33 ∧
      len sig = 65 ∧
      upto sig 64 = some (List.replicate 32 7 ++ List.replicate 32 0) ∧
      ((idx sig 64).val : Int) = 3 :=
  C2_recover_roundtrip (toyAdapter 0 3) toyNonce toyMsg toySeckey
    ⟨1, some (List.replicate 32 7 ++ List.replicate 32 0), 3⟩
    (by decide) (by decide) (by decide) (by decide) (by decide) (by decide) (by decide)
    (by decide) (by decide) (by decide)

/-- C3: for a non-nil message, a 65-byte signature and a 33-byte key,
`VerifySignature` returns 1 exactly when the top bit of byte 32 is 0, byte 64
is below 4, `RecoverPubkey` returns a non-nil key and that key is byte-equal to
the expected one; when the adapter's recover keeps its contract (success comes
with a 33-byte key) the only other result is a returned 0; and a set top bit or
a byte 64 of at least 4 gives 0 whatever the adapter would recover. -/
theorem C3_VerifySignature_spec (A : Adapter) (msg sig pk : Slice)
    (hmsg : msg ≠ none) (hsig : len sig = 65) (hpk : len pk = 33) :
    (VerifySignature A msg sig pk = .ret 1 ↔
      (idx sig 32).val >>> 7 = 0 ∧ (idx sig 64).val < 4 ∧
        ∃ pk2, RecoverPubkey A msg sig = .ret pk2 ∧ pk2 ≠ none ∧ bytesEqual pk pk2 = true) ∧
    (((A.RecoverPublicKey (upto sig 64) msg ((idx sig 64).val : Int)).2 = 1 →
        len (A.RecoverPublicKey (upto sig 64) msg ((idx sig 64).val : Int)).1 = 33) →
      VerifySignature A msg sig pk = .ret 1 ∨ VerifySignature A msg sig pk = .ret 0) ∧
    ((idx sig 32).val >>> 7 = 1 ∨ 4 ≤ (idx sig 64).val →
      VerifySignature A msg sig pk = .ret 0) := by
  have hsnn : sig ≠ none := ne_none_of_len_ne_zero (by omega)
  have hpnn : pk ≠ none := ne_none_of_len_ne_zero (by omega)
  have hV : VerifySignature A msg sig pk =
      if (idx sig 32).val >>> 7 = 1 then .ret 0
      else if (idx sig 64).val ≥ 4 then .ret 0
      else (RecoverPubkey A msg sig).bind fun pubkey2 =>
        if pubkey2 = none then .ret 0
        else if len pubkey2 ≠ 33 then .panic "recovered pubkey length invalid"
        else if bytesEqual pk pubkey2 = false then .ret 0
        else .ret 1 := by
    unfold VerifySignature
    simp [hmsg, hsnn, hpnn, hsig, hpk]
  rw [hV]
  rcases byte_shift_cases (idx sig 32) with h32 | h32
  · by_cases h64 : (idx sig 64).val ≥ 4
    · simp [h32, h64]
    · rcases RecoverPubkey_cases A msg sig hsig with ⟨hR, hne⟩ | ⟨⟨m, hR⟩, h1, hl⟩ | ⟨p, hR, hnn, hl, _⟩
      · simp [h32, h64, hR, Outcome.bind]
      · simp [h32, h64, hR, Outcome.bind, h1, hl]
      · by_cases hb : bytesEqual pk p = true
        · simp [h32, h64, hR, Outcome.bind, hnn, hl, hb]
          omega
        · simp [h32, h64, hR, Outcome.bind, hnn, hl, hb]
  · simp [h32]

/-- Witness for C3: a signature made by the concrete adapter verifies. -/
theorem C3_VerifySignature_spec_witness :
    (toyMsg ≠ none ∧
      len (some (List.replicate 32 7 ++ List.replicate 32 0 ++ [0]) : Slice) = 65 ∧
      len (some (2 :: List.replicate 32 7) : Slice) = 33) ∧
    VerifySignature (toyAdapter 0 0) toyMsg
      (some (List.replicate 32 7 ++ List.replicate 32 0 ++ [0]))
      (some (2 :: List.replicate 32 7)) = .ret 1 :=
  ⟨by decide,
    (C3_VerifySignature_spec (toyAdapter 0 0) toyMsg
      (some (List.replicate 32 7 ++ List.replicate 32 0 ++ [0]))
      (some (2 :: List.replicate 32 7)) (by decide) (by decide) (by decide)).1.mpr
      ⟨by decide, by decide, some (2 :: List.replicate 32 7), by decide, by decide, by decide⟩⟩

/-- C4, the code at the failing inputs: on a signature whose byte 32 has its top
bit set, on one whose byte 64 is 4, and on one of the wrong length,
`VerifySignatureValidity` ends the process through `log.Fatal` and returns
nothing, where `VerifySignature` returns 0 on the first two. -/
theorem C4_VerifySignatureValidity_fatal :
    VerifySignatureValidity (some (List.replicate 32 0 ++ 128 :: List.replicate 32 0))
      = .fatal "2" ∧
    VerifySignatureValidity (some (List.replicate 64 0 ++ [4])) = .fatal "3" ∧
    VerifySignatureValidity (some (List.replicate 64 0)) = .fatal "1" ∧
    VerifySignature (toyAdapter 0 0) toyMsg
      (some (List.replicate 32 0 ++ 128 :: List.replicate 32 0))
      (some (2 :: List.replicate 32 7)) = .ret 0 ∧
    VerifySignature (toyAdapter 0 0) toyMsg (some (List.replicate 64 0 ++ [4]))
      (some (2 :: List.replicate 32 7)) = .ret 0 := by
  decide

/-- C5: `Sign` and `SignDeterministic` return only signatures whose byte 64 is
the engine's recovery id.  Whenever one of them returns and the engine's
recovery id is in its range 0..3, the signature is 65 bytes and byte 64 is that
id, so below 4; and whenever the engine reports a recovery id above 4 neither
returns: with the other checks passed the call ends in the `log.Panic()` of the
recovery-id guard. -/
theorem C5_recid_byte_in_range (A : Adapter) (nonce msg sk nonceSeed : Slice)
    (r d : SignResult)
    (hr : A.Sign (A.SetBytes sk) (A.SetBytes msg) (A.SetBytes nonce) = r)
    (hd : A.Sign (A.SetBytes sk) (A.SetBytes msg) (A.SetBytes (A.SumSHA256 nonceSeed)) = d) :
    (∀ sig, Sign A nonce msg sk = .ret sig → 0 ≤ r.recid → r.recid < 4 →
      len sig = 65 ∧ (idx sig 64).val < 4 ∧ ((idx sig 64).val : Int) = r.recid) ∧
    (∀ sig, SignDeterministic A msg sk nonceSeed = .ret sig → 0 ≤ d.recid → d.recid < 4 →
      len sig = 65 ∧ (idx sig 64).val < 4 ∧ ((idx sig 64).val : Int) = d.recid) ∧
    (4 < r.recid → (Sign A nonce msg sk).returns = false) ∧
    (4 < d.recid → (SignDeterministic A msg sk nonceSeed).returns = false) ∧
    (len sk = 32 → A.SeckeyIsValid sk = 1 → len msg ≠ 0 → r.ret = 1 →
      len r.sigBytes = 64 → 4 < r.recid → Sign A nonce msg sk = .panic "") ∧
    (d.ret = 1 → len d.sigBytes = 64 → 4 < d.recid →
      SignDeterministic A msg sk nonceSeed = .panic "") := by
  have layout : ∀ (q : SignResult) (sig : Slice), ¬ len q.sigBytes < 64 →
      ¬ len q.sigBytes ≠ 64 →
      sig = some ((bytes q.sigBytes).take 64 ++ [byteOfInt q.recid]) →
      0 ≤ q.recid → q.recid < 4 →
      len sig = 65 ∧ (idx sig 64).val < 4 ∧ ((idx sig 64).val : Int) = q.recid := by
    intro q sig _ h64 hsig h0 h4
    have hl : (bytes q.sigBytes).length = 64 := by
      rw [← len_eq_length]
      exact not_not.mp h64
    have hb : ((byteOfInt q.recid).val : Int) = q.recid := byteOfInt_val h0 (by omega)
    subst hsig
    refine ⟨len_sig_layout _ hl, ?_, ?_⟩
    · rw [idx_sig_layout_last _ hl]
      omega
    · rw [idx_sig_layout_last _ hl]
      exact hb
  refine ⟨?_, ?_, ?_, ?_, ?_, ?_⟩
  · intro sig h h0 h4
    unfold Sign at h
    rw [hr] at h
    split_ifs at h with h1 h2 h3 h5 h6 h7 h8
    exact layout r sig h6 h7 (Outcome.ret.inj h).symm h0 h4
  · intro sig h h0 h4
    unfold SignDeterministic at h
    rw [hd] at h
    split_ifs at h with h5 h6 h7 h8
    exact layout d sig h6 h7 (Outcome.ret.inj h).symm h0 h4
  · intro h
    unfold Sign
    rw [hr]
    split_ifs <;> rfl
  · intro h
    unfold SignDeterministic
    rw [hd]
    split_ifs <;> rfl
  · intro h1 h2 h3 h4 h5 h6
    unfold Sign
    rw [hr]
    simp [h1, h2, h3, h4, h5, h6]
  · intro h4 h5 h6
    unfold SignDeterministic
    rw [hd]
    simp [h4, h5, h6]

/-- Witness for C5: with recovery id 3 the concrete adapter's signature has
byte 64 equal to 3, and with recovery id 5 `Sign` ends in the guard's panic. -/
theorem C5_recid_byte_in_range_witness :
    (Sign (toyAdapter 0 3) toyNonce toyMsg toySeckey
        = .ret (some (List.replicate 32 7 ++ List.replicate 32 0 ++ [3])) ∧
      (idx (some (List.replicate 32 7 ++ List.replicate 32 0 ++ [3])) 64).val < 4) ∧
    Sign (toyAdapter 0 5) toyNonce toyMsg toySeckey = .panic "" :=
  ⟨⟨by decide,
      ((C5_recid_byte_in_range (toyAdapter 0 3) toyNonce toyMsg toySeckey toyNonce _ _ rfl rfl).1
        _ (by decide) (by decide) (by decide)).2.1⟩,
    (C5_recid_byte_in_range (toyAdapter 0 5) toyNonce toyMsg toySeckey toyNonce _ _ rfl
      rfl).2.2.2.2.1 (by decide) (by decide) (by decide) (by decide) (by decide) (by decide)⟩

/-- C6, the code at the failing inputs: on an empty message, on a 31-byte
secret key and on a secret key the adapter rejects, `Sign` panics at its guard
while `SignDeterministic`, which has none of the three guards, returns a
65-byte signature. -/
theorem C6_SignDeterministic_skips_guards :
    (Sign (toyAdapter 0 0) ((toyAdapter 0 0).SumSHA256 toyNonce) (some []) toySeckey
        = .panic "Sign, message nil" ∧
      SignDeterministic (toyAdapter 0 0) (some []) toySeckey toyNonce
        = .ret (some (List.replicate 32 7 ++ List.replicate 32 0 ++ [0]))) ∧
    (Sign (toyAdapter 0 0) ((toyAdapter 0 0).SumSHA256 toyNonce) toyMsg
        (some (List.replicate 31 7)) = .panic "Sign, Invalid seckey length" ∧
      SignDeterministic (toyAdapter 0 0) toyMsg (some (List.replicate 31 7)) toyNonce
        = .ret (some (0 :: List.replicate 31 7 ++ List.replicate 32 0 ++ [0]))) ∧
    (Sign (toyAdapter 0 0) ((toyAdapter 0 0).SumSHA256 toyNonce) toyMsg
        (some (List.replicate 32 0)) = .panic "Attempting to sign with invalid seckey" ∧
      SignDeterministic (toyAdapter 0 0) toyMsg (some (List.replicate 32 0)) toyNonce
        = .ret (some (List.replicate 64 0 ++ [0]))) := by
  decide

/-- C7: for a non-nil message, a 65-byte signature and a 33-byte key,
`SignatureErrorString` returns "No Error!" exactly when `VerifySignature`
returns 1, aborts exactly when `VerifySignature` aborts, and otherwise returns
the reason of the first failing check in the order malleability, recovery byte,
recovery failure, key mismatch, in which case `VerifySignature` returns 0. -/
theorem C7_SignatureErrorString_spec (A : Adapter) (msg sig pk : Slice)
    (hmsg : msg ≠ none) (hsig : len sig = 65) (hpk : len pk = 33) :
    (SignatureErrorString A msg sig pk = .ret "No Error!" ↔
      VerifySignature A msg sig pk = .ret 1) ∧
    (SignatureErrorString A msg sig pk).aborts = (VerifySignature A msg sig pk).aborts ∧
    (SignatureErrorString A msg sig pk).returns = (VerifySignature A msg sig pk).returns ∧
    ((idx sig 32).val >>> 7 = 1 →
      SignatureErrorString A msg sig pk = .ret "signature fails malleability requirement") ∧
    ((idx sig 32).val >>> 7 = 0 → 4 ≤ (idx sig 64).val →
      SignatureErrorString A msg sig pk
        = .ret "signature recovery byte is invalid, must be 0 to 3") ∧
    ((idx sig 32).val >>> 7 = 0 → (idx sig 64).val < 4 →
      RecoverPubkey A msg sig = .ret none →
      SignatureErrorString A msg sig pk = .ret "pubkey from signature failed") ∧
    ((idx sig 32).val >>> 7 = 0 → (idx sig 64).val < 4 →
      ∀ pk2, RecoverPubkey A msg sig = .ret pk2 → pk2 ≠ none → bytesEqual pk pk2 = false →
      SignatureErrorString A msg sig pk
        = .ret "input pubkey and recovered pubkey do not match") ∧
    (∀ s, SignatureErrorString A msg sig pk = .ret s → s ≠ "No Error!" →
      VerifySignature A msg sig pk = .ret 0 ∧
      s ∈ ["signature fails malleability requirement",
           "signature recovery byte is invalid, must be 0 to 3",
           "pubkey from signature failed",
           "input pubkey and recovered pubkey do not match"]) := by
  have hsnn : sig ≠ none := ne_none_of_len_ne_zero (by omega)
  have hpnn : pk ≠ none := ne_none_of_len_ne_zero (by omega)
  have hV : VerifySignature A msg sig pk =
      if (idx sig 32).val >>> 7 = 1 then .ret 0
      else if (idx sig 64).val ≥ 4 then .ret 0
      else (RecoverPubkey A msg sig).bind fun pubkey2 =>
        if pubkey2 = none then .ret 0
        else if len pubkey2 ≠ 33 then .panic "recovered pubkey length invalid"
        else if bytesEqual pk pubkey2 = false then .ret 0
        else .ret 1 := by
    unfold VerifySignature
    simp [hmsg, hsnn, hpnn, hsig, hpk]
  have hS : SignatureErrorString A msg sig pk =
      if (idx sig 32).val >>> 7 = 1 then .ret "signature fails malleability requirement"
      else if (idx sig 64).val ≥ 4 then
        .ret "signature recovery byte is invalid, must be 0 to 3"
      else (RecoverPubkey A msg sig).bind fun pubkey2 =>
        if pubkey2 = none then .ret "pubkey from signature failed"
        else if bytesEqual pk pubkey2 = false then
          .ret "input pubkey and recovered pubkey do not match"
        else .ret "No Error!" := by
    unfold SignatureErrorString
    simp [hmsg, hsig, hpk]
  rw [hV, hS]
  rcases byte_shift_cases (idx sig 32) with h32 | h32
  · by_cases h64 : (idx sig 64).val ≥ 4
    · simp [h32, h64, Outcome.aborts, Outcome.returns]
    · rcases RecoverPubkey_cases A msg sig hsig with
        ⟨hR, hne⟩ | ⟨⟨m, hR⟩, h1, hl⟩ | ⟨p, hR, hnn, hl, _⟩
      · simp [h32, h64, hR, Outcome.bind, Outcome.aborts, Outcome.returns]
      · simp [h32, h64, hR, Outcome.bind, Outcome.aborts, Outcome.returns]
      · by_cases hb : bytesEqual pk p = true
        · simp [h32, h64, hR, Outcome.bind, hnn, hl, hb, Outcome.aborts, Outcome.returns]
        · simp [h32, h64, hR, Outcome.bind, hnn, hl, hb, Outcome.aborts, Outcome.returns]
  · simp [h32, Outcome.aborts, Outcome.returns]

/-- Witness for C7: on a signature made by the concrete adapter both functions
report success. -/
theorem C7_SignatureErrorString_spec_witness :
    (toyMsg ≠ none ∧
      len (some (List.replicate 32 7 ++ List.replicate 32 0 ++ [0]) : Slice) = 65 ∧
      len (some (2 :: List.replicate 32 7) : Slice) = 33) ∧
    SignatureErrorString (toyAdapter 0 0) toyMsg
      (some (List.replicate 32 7 ++ List.replicate 32 0 ++ [0]))
      (some (2 :: List.replicate 32 7)) = .ret "No Error!" :=
  ⟨by decide,
    (C7_SignatureErrorString_spec (toyAdapter 0 0) toyMsg
      (some (List.replicate 32 7 ++ List.replicate 32 0 ++ [0]))
      (some (2 :: List.replicate 32 7)) (by decide) (by decide) (by decide)).1.mpr
      (by decide)⟩

/-- C8: for a 32-byte seed, a digest with 32-byte outputs, and `k ≥ 1` the
least number of digest applications after which the adapter accepts the value
as a scalar, if the adapter's public key for that scalar passes `VerifyPubkey`
then with any fuel of at least `k` loop passes `generateDeterministicKeyPair`
returns that `k`-th iterate as the secret key together with the adapter's
public key for it.  The seed itself is never a candidate, and each retry
digests the previous digest. -/
theorem C8_generateDeterministicKeyPair_least (A : Adapter) (seed : Slice) (k fuel : Nat)
    (hseed : len seed = 32) (hsha : ∀ x, len (A.SumSHA256 x) = 32) (hk : 1 ≤ k)
    (hvalid : A.SeckeyIsValid (hashChain A k seed) = 1)
    (hleast : ∀ j, 1 ≤ j → j < k → A.SeckeyIsValid (hashChain A j seed) ≠ 1)
    (hpub : VerifyPubkey A (A.GeneratePublicKey (hashChain A k seed)) = 1)
    (hfuel : k ≤ fuel) :
    generateDeterministicKeyPair A fuel seed =
      .ret (A.GeneratePublicKey (hashChain A k seed), hashChain A k seed) := by
  have hnn : seed ≠ none := ne_none_of_len_ne_zero (by omega)
  unfold generateDeterministicKeyPair
  rw [if_neg hnn, if_neg (not_not.mpr hseed)]
  exact loop_least A hsha k fuel seed hseed hk hvalid hleast hpub hfuel

/-- Witness for C8: from the all-zero seed the first digest (32 bytes of 1) is
rejected by the concrete adapter and the second, the digest of the first
(32 bytes of 33), is accepted and returned. -/
theorem C8_generateDeterministicKeyPair_least_witness :
    generateDeterministicKeyPair (toyAdapter 0 0) 5 (some (List.replicate 32 0)) =
      .ret (some (2 :: List.replicate 32 33), some (List.replicate 32 33)) :=
  C8_generateDeterministicKeyPair_least (toyAdapter 0 0) (some (List.replicate 32 0)) 2 5
    (by decide) toySHA_len (by decide) (by decide)
    (fun j h1 h2 => by
      have hj : j = 1 := by omega
      subst hj
      decide)
    (by decide) (by decide)

/-- C9: every key pair handed out is valid.  Whenever
`generateDeterministicKeyPair`, `DeterministicKeyPairIterator`,
`GenerateDeterministicKeyPair`, `GenerateKeyPair` or `PubkeyFromSeckey` returns,
the secret key is 32 bytes with `VerifySeckey = 1`, the public key is 33 bytes
with `VerifyPubkey = 1` and is the adapter's base-point multiple of the secret
key; `GenerateKeyPair` returns the first draw the adapter accepts; and what is
returned does not depend on the loop fuel, only on the seed (or the draws). -/
theorem C9_key_pairs_valid (A : Adapter) :
    (∀ fuel seed pk sk, generateDeterministicKeyPair A fuel seed = .ret (pk, sk) →
      ValidPair A pk sk) ∧
    (∀ fuel seed next pk sk, DeterministicKeyPairIterator A fuel seed = .ret (next, pk, sk) →
      ValidPair A pk sk) ∧
    (∀ fuel seed pk sk, GenerateDeterministicKeyPair A fuel seed = .ret (pk, sk) →
      ValidPair A pk sk) ∧
    (∀ rand fuel i pk sk, GenerateKeyPair A rand fuel i = .ret (pk, sk) →
      ValidPair A pk sk ∧ ∃ k, sk = rand (i + k) ∧ A.SeckeyIsValid (rand (i + k)) = 1 ∧
        ∀ j, j < k → A.SeckeyIsValid (rand (i + j)) ≠ 1) ∧
    (∀ sk pk, PubkeyFromSeckey A sk = .ret pk → ValidPair A pk sk) ∧
    (∀ f g seed r r', generateDeterministicKeyPair A f seed = .ret r →
      generateDeterministicKeyPair A g seed = .ret r' → r = r') ∧
    (∀ f g seed r r', DeterministicKeyPairIterator A f seed = .ret r →
      DeterministicKeyPairIterator A g seed = .ret r' → r = r') ∧
    (∀ f g seed r r', GenerateDeterministicKeyPair A f seed = .ret r →
      GenerateDeterministicKeyPair A g seed = .ret r' → r = r') ∧
    (∀ rand f g i r r', GenerateKeyPair A rand f i = .ret r →
      GenerateKeyPair A rand g i = .ret r' → r = r') := by
  have hiter : ∀ f g seed r r', DeterministicKeyPairIterator A f seed = .ret r →
      DeterministicKeyPairIterator A g seed = .ret r' → r = r' := by
    intro f g seed r r' h1 h2
    exact ret_unique (iterator_mono (Nat.le_max_left f g) h1)
      (iterator_mono (Nat.le_max_right f g) h2)
  refine ⟨fun fuel seed pk sk h => gen_ret_valid h, ?_, ?_, ?_, ?_, ?_, hiter, ?_, ?_⟩
  · intro fuel seed next pk sk h
    exact gen_ret_valid (iterator_ret h).2
  · intro fuel seed pk sk h
    unfold GenerateDeterministicKeyPair at h
    obtain ⟨r, hr, h⟩ := Outcome.bind_eq_ret.mp h
    cases h
    exact gen_ret_valid (iterator_ret hr).2
  · intro rand fuel i pk sk h
    exact GenerateKeyPair_ret A rand fuel i pk sk h
  · intro sk pk h
    obtain ⟨a1, a2, a3, _, a5, _, a7⟩ := PubkeyFromSeckey_ret h
    exact ⟨a1, VerifySeckey_eq_one a1 a2, a5, a7, a3⟩
  · intro f g seed r r' h1 h2
    exact ret_unique (gen_mono (Nat.le_max_left f g) h1) (gen_mono (Nat.le_max_right f g) h2)
  · intro f g seed r r' h1 h2
    unfold GenerateDeterministicKeyPair at h1 h2
    obtain ⟨a, ha, h1⟩ := Outcome.bind_eq_ret.mp h1
    obtain ⟨b, hb, h2⟩ := Outcome.bind_eq_ret.mp h2
    cases h1
    cases h2
    rw [hiter f g seed a b ha hb]
  · intro rand f g i r r' h1 h2
    exact ret_unique (GenerateKeyPair_mono A rand i r (Nat.le_max_left f g) h1)
      (GenerateKeyPair_mono A rand i r' (Nat.le_max_right f g) h2)

/-- Witness for C9: the pair derived from the all-zero seed, and a generated
pair whose first draw is rejected and whose second is returned. -/
theorem C9_key_pairs_valid_witness :
    (generateDeterministicKeyPair (toyAdapter 0 0) 5 (some (List.replicate 32 0)) =
        .ret (some (2 :: List.replicate 32 33), some (List.replicate 32 33)) ∧
      ValidPair (toyAdapter 0 0) (some (2 :: List.replicate 32 33))
        (some (List.replicate 32 33))) ∧
    (GenerateKeyPair (toyAdapter 0 0)
        (fun i => some (List.replicate 32 (Fin.ofNat i))) 5 1 =
        .ret (some (2 :: List.replicate 32 2), some (List.replicate 32 2)) ∧
      ValidPair (toyAdapter 0 0) (some (2 :: List.replicate 32 2))
        (some (List.replicate 32 2))) :=
  ⟨⟨by decide,
      (C9_key_pairs_valid (toyAdapter 0 0)).1 5 (some (List.replicate 32 0)) _ _ (by decide)⟩,
    ⟨by decide,
      ((C9_key_pairs_valid (toyAdapter 0 0)).2.2.2.1
        (fun i => some (List.replicate 32 (Fin.ofNat i))) 5 1 _ _ (by decide)).1⟩⟩

/-- C10: `Secp256k1Hash` is its reference definition on every input; when the
two inner derivations and the ECDH call return, the result is the digest of
`h` followed by the shared point, where `h` is the digest of the input; with
32-byte digests a returned result is 32 bytes; and the input enters only
through its digest. -/
theorem C10_Secp256k1Hash_ref (A : Adapter) (fuel : Nat) (x : Slice)
    (hsha : ∀ y, len (A.SumSHA256 y) = 32) :
    Secp256k1Hash A fuel x = Secp256k1HashRef A fuel x ∧
    (∀ pub1 sec1 pub2 sec2 shared,
      generateDeterministicKeyPair A fuel (A.SumSHA256 x) = .ret (pub1, sec1) →
      generateDeterministicKeyPair A fuel (A.SumSHA256 (A.SumSHA256 x)) = .ret (pub2, sec2) →
      ECDH A pub2 sec1 = .ret shared →
      Secp256k1Hash A fuel x =
        .ret (A.SumSHA256 (some (bytes (A.SumSHA256 x) ++ bytes shared)))) ∧
    (∀ r, Secp256k1Hash A fuel x = .ret r → len r = 32) ∧
    (∀ y, A.SumSHA256 y = A.SumSHA256 x →
      Secp256k1Hash A fuel y = Secp256k1Hash A fuel x) := by
  have hnn : A.SumSHA256 x ≠ none := ne_none_of_len_ne_zero (by rw [hsha]; omega)
  refine ⟨?_, ?_, ?_, ?_⟩
  · unfold Secp256k1Hash Secp256k1HashRef
    cases h1 : generateDeterministicKeyPair A fuel (A.SumSHA256 x) with
    | ret p1 =>
      cases h2 : generateDeterministicKeyPair A fuel (A.SumSHA256 (A.SumSHA256 x)) with
      | ret p2 =>
        cases h3 : ECDH A p2.1 p1.2 with
        | ret e => simp [Outcome.bind, h3, goAppend_of_ne_none e hnn]
        | panic m => simp [Outcome.bind, h3]
        | fatal m => simp [Outcome.bind, h3]
        | outOfFuel => simp [Outcome.bind, h3]
      | panic m => simp [Outcome.bind]
      | fatal m => simp [Outcome.bind]
      | outOfFuel => simp [Outcome.bind]
    | panic m => simp [Outcome.bind]
    | fatal m => simp [Outcome.bind]
    | outOfFuel => simp [Outcome.bind]
  · intro pub1 sec1 pub2 sec2 shared h1 h2 h3
    unfold Secp256k1Hash
    rw [h1, Outcome.bind, h2, Outcome.bind, h3, Outcome.bind, goAppend_of_ne_none shared hnn]
  · intro r h
    unfold Secp256k1Hash at h
    obtain ⟨p1, _, h⟩ := Outcome.bind_eq_ret.mp h
    obtain ⟨p2, _, h⟩ := Outcome.bind_eq_ret.mp h
    obtain ⟨e, _, h⟩ := Outcome.bind_eq_ret.mp h
    cases h
    exact hsha _
  · intro y hy
    unfold Secp256k1Hash
    rw [hy]

/-- Witness for C10: the salted hash of a one-byte input under the concrete
adapter, from both the function and its reference definition. -/
theorem C10_Secp256k1Hash_ref_witness :
    Secp256k1Hash (toyAdapter 0 0) 5 toyMsg = .ret (some (List.replicate 32 131)) ∧
    Secp256k1HashRef (toyAdapter 0 0) 5 toyMsg = .ret (some (List.replicate 32 131)) ∧
    len (some (List.replicate 32 131) : Slice) = 32 :=
  ⟨by decide,
    (C10_Secp256k1Hash_ref (toyAdapter 0 0) 5 toyMsg toySHA_len).1 ▸ (by decide),
    (C10_Secp256k1Hash_ref (toyAdapter 0 0) 5 toyMsg toySHA_len).2.2.1 _ (by decide)⟩

/-- C11: with 32-byte digests, one derivation step is its reference definition
on every seed: `DeterministicKeyPairIterator` returns `(nextSeed, pk, sk)`
exactly when `Secp256k1Hash` of the seed returns `nextSeed` and
`generateDeterministicKeyPair` of the digest of the seed followed by `nextSeed`
returns `(pk, sk)`, and `GenerateDeterministicKeyPair` returns exactly the
`(pk, sk)` of that step. -/
theorem C11_iterator_ref (A : Adapter) (fuel : Nat) (seed : Slice)
    (hsha : ∀ y, len (A.SumSHA256 y) = 32) :
    DeterministicKeyPairIterator A fuel seed = DeterministicKeyPairIteratorRef A fuel seed ∧
    (∀ nextSeed pk sk,
      DeterministicKeyPairIterator A fuel seed = .ret (nextSeed, pk, sk) ↔
        Secp256k1Hash A fuel seed = .ret nextSeed ∧
        generateDeterministicKeyPair A fuel
          (A.SumSHA256 (some (bytes seed ++ bytes nextSeed))) = .ret (pk, sk)) ∧
    (∀ pk sk,
      GenerateDeterministicKeyPair A fuel seed = .ret (pk, sk) ↔
        ∃ nextSeed, DeterministicKeyPairIterator A fuel seed = .ret (nextSeed, pk, sk)) ∧
    (GenerateDeterministicKeyPair A fuel seed).returns
      = (DeterministicKeyPairIterator A fuel seed).returns := by
  have happ : ∀ nextSeed, Secp256k1Hash A fuel seed = .ret nextSeed →
      goAppend seed nextSeed = some (bytes seed ++ bytes nextSeed) := by
    intro nextSeed h
    exact goAppend_of_len_ne_zero seed (by rw [hash_ret_len hsha h]; omega)
  refine ⟨?_, ?_, ?_, ?_⟩
  · unfold DeterministicKeyPairIterator DeterministicKeyPairIteratorRef
    cases h1 : Secp256k1Hash A fuel seed with
    | ret nextSeed =>
      simp only [Outcome.bind]
      rw [happ nextSeed h1]
      cases h2 : generateDeterministicKeyPair A fuel
          (A.SumSHA256 (some (bytes seed ++ bytes nextSeed))) with
      | ret p => simp [Outcome.bind]
      | panic m => simp [Outcome.bind]
      | fatal m => simp [Outcome.bind]
      | outOfFuel => simp [Outcome.bind]
    | panic m => simp [Outcome.bind]
    | fatal m => simp [Outcome.bind]
    | outOfFuel => simp [Outcome.bind]
  · intro nextSeed pk sk
    constructor
    · intro h
      obtain ⟨h1, h2⟩ := iterator_ret h
      rw [happ nextSeed h1] at h2
      exact ⟨h1, h2⟩
    · rintro ⟨h1, h2⟩
      unfold DeterministicKeyPairIterator
      rw [h1, Outcome.bind, happ nextSeed h1, h2, Outcome.bind]
  · intro pk sk
    unfold GenerateDeterministicKeyPair
    constructor
    · intro h
      obtain ⟨r, hr, h⟩ := Outcome.bind_eq_ret.mp h
      cases h
      exact ⟨r.1, hr⟩
    · rintro ⟨nextSeed, h⟩
      rw [h, Outcome.bind]
  · unfold GenerateDeterministicKeyPair
    cases DeterministicKeyPairIterator A fuel seed <;> rfl

/-- Witness for C11: one derivation step from a one-byte seed under the
concrete adapter. -/
theorem C11_iterator_ref_witness :
    DeterministicKeyPairIterator (toyAdapter 0 0) 5 toyMsg
      = .ret (some (List.replicate 32 131), some (2 :: List.replicate 32 65),
          some (List.replicate 32 65)) ∧
    DeterministicKeyPairIteratorRef (toyAdapter 0 0) 5 toyMsg
      = .ret (some (List.replicate 32 131), some (2 :: List.replicate 32 65),
          some (List.replicate 32 65)) ∧
    GenerateDeterministicKeyPair (toyAdapter 0 0) 5 toyMsg
      = .ret (some (2 :: List.replicate 32 65), some (List.replicate 32 65)) :=
  ⟨by decide,
    (C11_iterator_ref (toyAdapter 0 0) 5 toyMsg toySHA_len).1 ▸ (by decide),
    ((C11_iterator_ref (toyAdapter 0 0) 5 toyMsg toySHA_len).2.2.1 _ _).mpr
      ⟨some (List.replicate 32 131), by decide⟩⟩

/-- C12: ECDH symmetry.  For two 32-byte secrets the adapter accepts, with
public keys as `PubkeyFromSeckey` returns them, if the adapter's multiplication
commutes on them (the base-point multiple of one times the other secret is the
same either way) and yields a 33-byte point, then `ECDH` of each public key
with the other secret returns the same non-nil value. -/
theorem C12_ECDH_symmetric (A : Adapter) (secA secB pubA pubB : Slice)
    (hA : PubkeyFromSeckey A secA = .ret pubA) (hB : PubkeyFromSeckey A secB = .ret pubB)
    (hcomm : A.Multiply (A.GeneratePublicKey secA) secB
      = A.Multiply (A.GeneratePublicKey secB) secA)
    (hpoint : len (A.Multiply (A.GeneratePublicKey secA) secB) = 33) :
    ∃ shared, shared ≠ none ∧ len shared = 33 ∧
      ECDH A pubA secB = .ret shared ∧ ECDH A pubB secA = .ret shared ∧
      bytesEqual shared shared = true := by
  obtain ⟨a1, _, a3, _, a5, _, a7⟩ := PubkeyFromSeckey_ret hA
  obtain ⟨b1, _, b3, _, b5, _, b7⟩ := PubkeyFromSeckey_ret hB
  have hnn : A.Multiply (A.GeneratePublicKey secA) secB ≠ none :=
    ne_none_of_len_ne_zero (by omega)
  refine ⟨A.Multiply (A.GeneratePublicKey secA) secB, hnn, hpoint, ?_, ?_, bytesEqual_self _⟩
  · rw [ECDH_of_lengths A a5 b1, a3]
    rw [a3] at a7
    simp [a7, hnn, hpoint]
  · rw [ECDH_of_lengths A b5 a1, b3, ← hcomm]
    rw [b3] at b7
    simp [b7, hnn, hpoint]

/-- Witness for C12: two key pairs of the concrete adapter, whose
multiplication adds byte by byte. -/
theorem C12_ECDH_symmetric_witness :
    ∃ shared, shared ≠ none ∧ len shared = 33 ∧
      ECDH (toyAdapter 0 0) (some (2 :: List.replicate 32 7)) (some (List.replicate 32 9))
        = .ret shared ∧
      ECDH (toyAdapter 0 0) (some (2 :: List.replicate 32 9)) (some (List.replicate 32 7))
        = .ret shared ∧
      bytesEqual shared shared = true :=
  C12_ECDH_symmetric (toyAdapter 0 0) (some (List.replicate 32 7)) (some (List.replicate 32 9))
    (some (2 :: List.replicate 32 7)) (some (2 :: List.replicate 32 9))
    (by decide) (by decide) (by decide) (by decide)

/-- C13, the code where the engine aborts: for a 33-byte public key and a
32-byte secret whose validity test returns, if the engine's public-key validity
test aborts on the key then `VerifyPubkey` aborts and `ECDH` aborts with it
instead of returning nil; if `VerifyPubkey` returns 1 and the engine's
multiplication aborts then `ECDH` aborts; and `ECDH` returns nil whenever
`VerifyPubkey` returns a value other than 1. -/
theorem C13_ECDH_aborts_with_engine (E : Engine) (pub sec : Slice) (v : Int) (m : String)
    (hpub : len pub = 33) (hsec : len sec = 32) (hsk : E.SeckeyIsValid sec = .ret v) :
    (E.PubkeyIsValid pub = .panic m →
      Aborting.VerifyPubkey E pub = .panic m ∧ Aborting.ECDH E pub sec = .panic m) ∧
    (Aborting.VerifyPubkey E pub = .ret 1 → E.Multiply pub sec = .panic m →
      Aborting.ECDH E pub sec = .panic m) ∧
    (∀ c, Aborting.VerifyPubkey E pub = .ret c → c ≠ 1 →
      Aborting.ECDH E pub sec = .ret none) := by
  have hS : ∃ c, Aborting.VerifySeckey E sec = .ret c := by
    unfold Aborting.VerifySeckey
    rw [if_neg (not_not.mpr hsec), hsk]
    simp only [Outcome.bind]
    split_ifs
    · exact ⟨_, rfl⟩
    · exact ⟨_, rfl⟩
  obtain ⟨c0, hS⟩ := hS
  have hE : Aborting.ECDH E pub sec =
      (Aborting.VerifyPubkey E pub).bind fun ret =>
        if ret ≠ 1 then .ret none
        else
          (E.Multiply pub sec).bind fun pubkeyOut =>
            if pubkeyOut = none then .ret none
            else if len pubkeyOut ≠ 33 then .panic "ERROR: impossible, invalid pubkey length"
            else .ret pubkeyOut := by
    unfold Aborting.ECDH
    rw [if_neg (not_not.mpr hsec), if_neg (not_not.mpr hpub), hS]
    rfl
  refine ⟨?_, ?_, ?_⟩
  · intro h
    have hV : Aborting.VerifyPubkey E pub = .panic m := by
      unfold Aborting.VerifyPubkey
      rw [if_neg (not_not.mpr hpub), h]
      rfl
    exact ⟨hV, by rw [hE, hV]; rfl⟩
  · intro h1 h2
    rw [hE, h1]
    simp [Outcome.bind, h2]
  · intro c h1 h2
    rw [hE, h1]
    simp [Outcome.bind, h2]

/-- Witness for C13: on the key 0x02 followed by 32 bytes of 0xff, where the
concrete engine's validity test aborts, `ECDH` aborts. -/
theorem C13_ECDH_aborts_with_engine_witness :
    (len badPubkey = 33 ∧ len toySeckey = 32 ∧
      abortingEngine.PubkeyIsValid badPubkey = .panic "secp: invalid point") ∧
    Aborting.ECDH abortingEngine badPubkey toySeckey = .panic "secp: invalid point" :=
  ⟨by decide,
    ((C13_ECDH_aborts_with_engine abortingEngine badPubkey toySeckey 1 "secp: invalid point"
      (by decide) (by decide) (by decide)).1 (by decide)).2⟩

/-- C14, the code where the engine aborts: on a 33-byte key on which the
engine's validity test aborts, `VerifyPubkey` aborts the same way and returns
no code at all. -/
theorem C14_VerifyPubkey_aborts_with_engine (E : Engine) (pk : Slice) (m : String)
    (hlen : len pk = 33) (habort : E.PubkeyIsValid pk = .panic m) :
    Aborting.VerifyPubkey E pk = .panic m ∧
    (Aborting.VerifyPubkey E pk).aborts = true ∧
    ∀ c, Aborting.VerifyPubkey E pk ≠ .ret c := by
  have hV : Aborting.VerifyPubkey E pk = .panic m := by
    unfold Aborting.VerifyPubkey
    rw [if_neg (not_not.mpr hlen), habort]
    rfl
  refine ⟨hV, by rw [hV]; rfl, ?_⟩
  intro c h
  rw [hV] at h
  cases h

/-- Witness for C14: the key 0x02 followed by 32 bytes of 0xff under the
concrete engine, whose validity test aborts on it. -/
theorem C14_VerifyPubkey_aborts_with_engine_witness :
    (len badPubkey = 33 ∧
      abortingEngine.PubkeyIsValid badPubkey = .panic "secp: invalid point") ∧
    Aborting.VerifyPubkey abortingEngine badPubkey = .panic "secp: invalid point" :=
  ⟨by decide,
    (C14_VerifyPubkey_aborts_with_engine abortingEngine badPubkey "secp: invalid point"
      (by decide) (by decide)).1⟩

/-- C15, the claim as written fails: on a 64-byte signature and on a 32-byte
public key `VerifySignature` panics instead of returning 0, on a 64-byte
signature `RecoverPubkey` panics instead of returning nil, and on a 31-byte
secret or a 32-byte public key `ECDH` panics instead of returning nil. -/
theorem C15_counterexample :
    VerifySignature (toyAdapter 0 0) toyMsg (some (List.replicate 64 0))
      (some (2 :: List.replicate 32 7)) = .panic "VerifySignature, invalid signature length" ∧
    VerifySignature (toyAdapter 0 0) toyMsg (some (List.replicate 65 0))
      (some (List.replicate 32 2)) = .panic "VerifySignature, invalid pubkey length" ∧
    RecoverPubkey (toyAdapter 0 0) toyMsg (some (List.replicate 64 0)) = .panic "" ∧
    ECDH (toyAdapter 0 0) (some (2 :: List.replicate 32 7)) (some (List.replicate 31 7))
      = .panic "" ∧
    ECDH (toyAdapter 0 0) (some (List.replicate 32 2)) toySeckey = .panic "" := by
  decide

/-- C15 (amended): wrong-length caller input is guarded by an abort.
`VerifySignature` with a signature not of 65 bytes or a public key not of 33
bytes panics, `RecoverPubkey` with a signature not of 65 bytes panics, and
`ECDH` with a secret not of 32 bytes or a public key not of 33 bytes panics;
none of them returns a value. -/
theorem C15_wrong_length_panics (A : Adapter) (msg sig pk pub sec : Slice) :
    (len sig ≠ 65 ∨ len pk ≠ 33 → ∃ m, VerifySignature A msg sig pk = .panic m) ∧
    (len sig ≠ 65 → RecoverPubkey A msg sig = .panic "") ∧
    (len sec ≠ 32 ∨ len pub ≠ 33 → ECDH A pub sec = .panic "") := by
  refine ⟨?_, ?_, ?_⟩
  · intro h
    unfold VerifySignature
    split_ifs with h1 h2 h3
    · exact ⟨_, rfl⟩
    · exact ⟨_, rfl⟩
    · exact ⟨_, rfl⟩
    all_goals
      exfalso
      rcases h with h | h
      · exact h2 h
      · exact h3 h
  · intro h
    unfold RecoverPubkey
    rw [if_pos h]
  · intro h
    unfold ECDH
    split_ifs with h1 h2
    · rfl
    · rfl
    all_goals
      exfalso
      rcases h with h | h
      · exact h1 h
      · exact h2 h

/-- Witness for C15 (amended): a 64-byte signature. -/
theorem C15_wrong_length_panics_witness :
    len (some (List.replicate 64 0) : Slice) ≠ 65 ∧
    RecoverPubkey (toyAdapter 0 0) toyMsg (some (List.replicate 64 0)) = .panic "" :=
  ⟨by decide,
    (C15_wrong_length_panics (toyAdapter 0 0) toyMsg (some (List.replicate 64 0)) none none
      none).2.1 (by decide)⟩

/-- C16, the code at the failing input: with a valid 33-byte public key and the
all-zero 32-byte secret, which `VerifySeckey` rejects with -2, `ECDH` still
returns a 33-byte point, and that point is whatever the adapter's
multiplication gives for the rejected scalar. -/
theorem C16_ECDH_invalid_seckey_multiplied :
    VerifySeckey (toyAdapter 0 0) (some (List.replicate 32 0)) = -2 ∧
    VerifyPubkey (toyAdapter 0 0) (some (2 :: List.replicate 32 7)) = 1 ∧
    ECDH (toyAdapter 0 0) (some (2 :: List.replicate 32 7)) (some (List.replicate 32 0))
      = .ret (some (2 :: List.replicate 32 7)) ∧
    ECDH (withMultiply (toyAdapter 0 0) (fun _ _ => some (List.replicate 33 9)))
        (some (2 :: List.replicate 32 7)) (some (List.replicate 32 0))
      = .ret (some (List.replicate 33 9)) := by
  decide

/-- C17, the code at the failing inputs: on invalid public keys (an empty
slice, the 33-byte all-zero buffer) `VerifyPubkey` returns -1 and -3, not the
0 its comment documents, so a comparison with 0 does not detect them. -/
theorem C17_VerifyPubkey_negative_codes :
    VerifyPubkey (toyAdapter 0 0) (some []) = -1 ∧
    VerifyPubkey (toyAdapter 0 0) zeroPubkey = -3 ∧
    VerifyPubkey (toyAdapter 0 0) (some []) ≠ 0 ∧
    VerifyPubkey (toyAdapter 0 0) zeroPubkey ≠ 0 := by
  decide

/-- C19: with 32-byte digests, for every seed, nil and empty included,
`Secp256k1Hash`, `DeterministicKeyPairIterator` and
`GenerateDeterministicKeyPair` never end in the nil-seed, seed-length or
seckey/seed mismatch abort of `generateDeterministicKeyPair` (nor in the
slice-bounds error of `seed[0:32]`), and no call of
`generateDeterministicKeyPair` on a digest ends in one. -/
theorem C19_entry_points_any_seed (A : Adapter) (hsha : ∀ y, len (A.SumSHA256 y) = 32)
    (fuel : Nat) (seed : Slice) :
    ¬ GuardAbort (Secp256k1Hash A fuel seed) ∧
    ¬ GuardAbort (DeterministicKeyPairIterator A fuel seed) ∧
    ¬ GuardAbort (GenerateDeterministicKeyPair A fuel seed) ∧
    (∀ y, ¬ GuardAbort (generateDeterministicKeyPair A fuel (A.SumSHA256 y))) ∧
    (∀ y, generateDeterministicKeyPair A fuel (A.SumSHA256 y)
      = generateDeterministicKeyPairLoop A fuel (A.SumSHA256 y)) := by
  refine ⟨hash_not_guardAbort A hsha fuel seed, iterator_not_guardAbort A hsha fuel seed, ?_,
    fun y => gen_not_guardAbort A hsha fuel y, ?_⟩
  · unfold GenerateDeterministicKeyPair
    exact not_guardAbort_bind (iterator_not_guardAbort A hsha fuel seed)
      (fun r _ => not_guardAbort_ret _)
  · intro y
    have hnn : A.SumSHA256 y ≠ none := ne_none_of_len_ne_zero (by rw [hsha]; omega)
    unfold generateDeterministicKeyPair
    rw [if_neg hnn, if_neg (not_not.mpr (hsha y))]

/-- Witness for C19: under the concrete adapter the three entry points return
on the nil seed, while `generateDeterministicKeyPair` itself panics on it. -/
theorem C19_entry_points_any_seed_witness :
    (generateDeterministicKeyPair (toyAdapter 0 0) 5 none = .panic "" ∧
      (Secp256k1Hash (toyAdapter 0 0) 5 none).returns = true ∧
      (DeterministicKeyPairIterator (toyAdapter 0 0) 5 none).returns = true ∧
      (GenerateDeterministicKeyPair (toyAdapter 0 0) 5 (some [])).returns = true) ∧
    ¬ GuardAbort (Secp256k1Hash (toyAdapter 0 0) 5 none) :=
  ⟨by decide, (C19_entry_points_any_seed (toyAdapter 0 0) toySHA_len 5 none).1⟩

/-- C20: inside `Secp256k1Hash`, whenever both inner derivations return, the
secret key handed to `ECDH` is 32 bytes with `VerifySeckey = 1` and the public
key is 33 bytes with `VerifyPubkey = 1`; `ECDH` therefore ends as the adapter's
product decides, never in a length abort, and returns nil exactly when the
adapter's multiplication returns nil, in which case the result is the digest of
the digest of the input. -/
theorem C20_hash_ECDH_validated (A : Adapter) (fuel : Nat) (x : Slice) (p1 p2 : Slice × Slice)
    (h1 : generateDeterministicKeyPair A fuel (A.SumSHA256 x) = .ret p1)
    (h2 : generateDeterministicKeyPair A fuel (A.SumSHA256 (A.SumSHA256 x)) = .ret p2) :
    (len p1.2 = 32 ∧ VerifySeckey A p1.2 = 1) ∧
    (len p2.1 = 33 ∧ VerifyPubkey A p2.1 = 1) ∧
    Secp256k1Hash A fuel x
      = (ECDH A p2.1 p1.2).bind
          (fun ecdh => .ret (A.SumSHA256 (goAppend (A.SumSHA256 x) ecdh))) ∧
    ECDH A p2.1 p1.2 =
      (if A.Multiply p2.1 p1.2 = none then .ret none
       else if len (A.Multiply p2.1 p1.2) ≠ 33 then
         .panic "ERROR: impossible, invalid pubkey length"
       else .ret (A.Multiply p2.1 p1.2)) ∧
    ECDH A p2.1 p1.2 ≠ .panic "" ∧
    (ECDH A p2.1 p1.2 = .ret none ↔ A.Multiply p2.1 p1.2 = none) ∧
    (A.Multiply p2.1 p1.2 = none →
      Secp256k1Hash A fuel x = .ret (A.SumSHA256 (A.SumSHA256 x))) := by
  have v1 : ValidPair A p1.1 p1.2 := gen_ret_valid h1
  have v2 : ValidPair A p2.1 p2.2 := gen_ret_valid h2
  have hE := ECDH_of_valid A v2.2.2.2.1 v1.1
  have hS : Secp256k1Hash A fuel x
      = (ECDH A p2.1 p1.2).bind
          (fun ecdh => .ret (A.SumSHA256 (goAppend (A.SumSHA256 x) ecdh))) := by
    unfold Secp256k1Hash
    rw [h1, Outcome.bind, h2, Outcome.bind]
  have hnn : A.SumSHA256 x ≠ none := (gen_ret_loop h1).1
  refine ⟨⟨v1.1, v1.2.1⟩, ⟨v2.2.2.1, v2.2.2.2.1⟩, hS, hE, ?_, ?_, ?_⟩
  · rw [hE]
    split_ifs <;> simp
  · rw [hE]
    constructor
    · intro h
      by_contra hne
      rw [if_neg hne] at h
      split_ifs at h
      exact hne (Outcome.ret.inj h)
    · intro h
      rw [if_pos h]
  · intro h
    rw [hS, hE, if_pos h, Outcome.bind, goAppend_of_ne_none none hnn]
    have : some (bytes (A.SumSHA256 x) ++ bytes none) = A.SumSHA256 x := by
      simp only [bytes, List.append_nil]
      exact some_bytes_of_ne_none hnn
    rw [this]

/-- Witness for C20: the salted hash of a one-byte input under the concrete
adapter; its two inner pairs are 32 bytes of 65 and 32 bytes of 33. -/
theorem C20_hash_ECDH_validated_witness :
    ECDH (toyAdapter 0 0) (some (2 :: List.replicate 32 33)) (some (List.replicate 32 65))
      = .ret (some (2 :: List.replicate 32 98)) ∧
    ECDH (toyAdapter 0 0) (some (2 :: List.replicate 32 33)) (some (List.replicate 32 65))
      ≠ .panic "" :=
  ⟨by decide,
    (C20_hash_ECDH_validated (toyAdapter 0 0) 5 toyMsg
      (some (2 :: List.replicate 32 65), some (List.replicate 32 65))
      (some (2 :: List.replicate 32 33), some (List.replicate 32 33))
      (by decide) (by decide)).2.2.2.2.1⟩

end Secp256k1
